import Mathlib

/-!
# Verification of the NWHacks2026 desktop agent core

This file gives a shallow embedding, in Lean 4, of the parts of the
repository that the specification's testable properties talk about:

* the verdict label functions `mapApiResponseToLabel` (electron main
  process) and `mapToLabel` (detector stub), both mapping `(is_ai,
  confidence)` to a UI label;
* the post-id extraction functions `extractBasePostId` (main process /
  detector stub) and `extractPostId` (file watcher), which reduce a full
  post id or a capture filename to the base id `post_<n>`;
* the frame uploader / batcher state machine of `fileWatcher.ts`
  (`processNewFile`, `sendImageBatchToAPI`, the `sentPostIds` ledger);
* the crop arithmetic of `screenshot.ts` (`captureAndCrop`);
* the per-post session state machine of the electron main process
  (`handleDomSensorMessage`, `startScreenshotLoop`, `stopScreenshotLoop`,
  `captureFrame`, `connectApiWebSocket`, `disconnectApiWebSocket`,
  the api-websocket result handler, and the sensor server handlers).

Numbers that are JS `number`s carrying fractional values (coordinates,
confidences, scale factors) are modelled as `ℚ`; epoch-millisecond clock
values and counters are modelled as `ℕ`.  Strings are modelled as Lean
`String`s, except in the character-level filename parsing functions where
`List Char` is used.  Asynchronous callbacks (timers, socket events) are
modelled as events of a step relation on an explicit state record;
external effects (screen capture success, HTTP outcome, websocket
construction) are oracle booleans carried by the events.
-/

/-! ## Verdict labels (main.ts `mapApiResponseToLabel`, detectorStub.ts `mapToLabel`) -/

/-- The pending label used by the code (three ASCII dots, as in the source). -/
def analyzingLabel : String := "Analyzing..."

/-- `mapApiResponseToLabel` from the electron main process: maps the
classifier's `(is_ai, confidence)` pair to the UI label. -/
def mapApiResponseToLabel (isAI : Bool) (confidence : ℚ) : String :=
  if confidence < 0.6 then "Unclear"
  else if isAI then
    (if confidence ≥ 0.8 then "Likely AI" else "Possibly AI")
  else "Likely Real"

/-- `mapToLabel` from `detectorStub.ts`; textually the same thresholds as
`mapApiResponseToLabel`. -/
def mapToLabel (isAI : Bool) (confidence : ℚ) : String :=
  if confidence < 0.6 then "Unclear"
  else if isAI then
    (if confidence ≥ 0.8 then "Likely AI" else "Possibly AI")
  else "Likely Real"

/-- C1: for every boolean `isAi` and every confidence `c ∈ [0,1]`, the label
function returns exactly the spec table's label: `Unclear` when `c < 0.60`;
`Likely AI` when `isAi ∧ c ≥ 0.80`; `Possibly AI` when `isAi ∧ 0.60 ≤ c <
0.80`; `Likely Real` when `¬isAi ∧ c ≥ 0.60`; and it agrees with the table
at the boundary inputs 0.59, 0.60, 0.79 and 0.80.  The detector stub's
`mapToLabel` agrees with `mapApiResponseToLabel` everywhere. -/
theorem C1_label_table (isAi : Bool) (c : ℚ) (h0 : 0 ≤ c) (h1 : c ≤ 1) :
    (c < 0.6 → mapApiResponseToLabel isAi c = "Unclear")
    ∧ (isAi = true → 0.8 ≤ c → mapApiResponseToLabel isAi c = "Likely AI")
    ∧ (isAi = true → 0.6 ≤ c → c < 0.8 → mapApiResponseToLabel isAi c = "Possibly AI")
    ∧ (isAi = false → 0.6 ≤ c → mapApiResponseToLabel isAi c = "Likely Real")
    ∧ (mapToLabel isAi c = mapApiResponseToLabel isAi c)
    ∧ (mapApiResponseToLabel true 0.59 = "Unclear"
        ∧ mapApiResponseToLabel false 0.59 = "Unclear"
        ∧ mapApiResponseToLabel true 0.6 = "Possibly AI"
        ∧ mapApiResponseToLabel false 0.6 = "Likely Real"
        ∧ mapApiResponseToLabel true 0.79 = "Possibly AI"
        ∧ mapApiResponseToLabel false 0.79 = "Likely Real"
        ∧ mapApiResponseToLabel true 0.8 = "Likely AI"
        ∧ mapApiResponseToLabel false 0.8 = "Likely Real") := by
  have h68 : (0.6 : ℚ) < 0.8 := by norm_num
  refine ⟨?_, ?_, ?_, ?_, rfl, ?_⟩
  · intro h
    simp only [mapApiResponseToLabel, if_pos h]
  · rintro rfl h
    have h6 : ¬ (c < 0.6) := by intro hc; linarith
    unfold mapApiResponseToLabel
    rw [if_neg h6, if_pos rfl, if_pos h]
  · rintro rfl h hlt
    have h6 : ¬ (c < 0.6) := not_lt.mpr h
    unfold mapApiResponseToLabel
    rw [if_neg h6, if_pos rfl, if_neg (not_le.mpr hlt)]
  · rintro rfl h
    have h6 : ¬ (c < 0.6) := not_lt.mpr h
    unfold mapApiResponseToLabel
    rw [if_neg h6, if_neg (by simp)]
  · refine ⟨?_, ?_, ?_, ?_, ?_, ?_, ?_, ?_⟩ <;> norm_num [mapApiResponseToLabel]

/-- Witness for `C1_label_table` at `isAi = true`, `c = 0.8`. -/
theorem C1_label_table_witness :
    (0 : ℚ) ≤ 0.8 ∧ (0.8 : ℚ) ≤ 1 ∧ mapApiResponseToLabel true 0.8 = "Likely AI" :=
  ⟨by norm_num, by norm_num,
    (C1_label_table true 0.8 (by norm_num) (by norm_num)).2.1 rfl (by norm_num)⟩

/-! ## Post-id extraction (fileWatcher.ts `extractPostId`, main.ts `extractBasePostId`)

The source uses the regexes `/^(post_\d+)/` and `/\.(jpg|jpeg)$/i`.  They
are modelled character-exactly on `List Char`. -/

/-- The characters of the literal `post_` prefix. -/
def postMarker : List Char := ['p', 'o', 's', 't', '_']

/-- The characters of the literal `.jpg` extension. -/
def jpgExt : List Char := ['.', 'j', 'p', 'g']

/-- The characters of the literal `.jpeg` extension. -/
def jpegExt : List Char := ['.', 'j', 'p', 'e', 'g']

/-- Maximal leading run of decimal digits (the `\d+` part of the regex,
greedy as in JS). -/
def takeDigits : List Char → List Char
  | [] => []
  | c :: cs => if c.isDigit then c :: takeDigits cs else []

/-- The regex match `s.match(/^(post_\d+)/)`: `some` of the matched text
when `s` starts with `post_` followed by at least one digit. -/
def matchPostNum (s : List Char) : Option (List Char) :=
  if postMarker <+: s then
    let ds := takeDigits (s.drop 5)
    if ds = [] then none else some (postMarker ++ ds)
  else none

/-- `extractBasePostId` from the electron main process and the detector
stub: return the `post_<n>` prefix of a full post id, or the id itself
when the regex does not match. -/
def extractBasePostId (s : List Char) : List Char :=
  (matchPostNum s).getD s

/-- `fileName.replace(/\.(jpg|jpeg)$/i, '')`: strip one trailing `.jpg` or
`.jpeg` extension, case-insensitively. -/
def stripImageExt (s : List Char) : List Char :=
  let low := s.map Char.toLower
  if jpegExt <:+ low then s.take (s.length - 5)
  else if jpgExt <:+ low then s.take (s.length - 4)
  else s

/-- First index at which `pat` occurs as a contiguous substring
(`String.prototype.indexOf`). -/
def findSub (pat : List Char) : List Char → Option Nat
  | [] => if pat = [] then some 0 else none
  | c :: cs => if pat <+: (c :: cs) then some 0 else (findSub pat cs).map (· + 1)

/-- `s.indexOf(ch, start)`: first index `≥ start` holding `ch`. -/
def indexOfFrom (ch : Char) (s : List Char) (start : Nat) : Option Nat :=
  ((s.drop start).findIdx? (· = ch)).map (start + ·)

/-- `extractPostId` from `fileWatcher.ts`: strip the image extension, take
the `post_<digits>` prefix if the regex matches, otherwise fall back to
the text from the first occurrence of `post_` up to the next underscore,
and finally to the whole extension-stripped name. -/
def extractPostId (fileName : List Char) : List Char :=
  let withoutExt := stripImageExt fileName
  match matchPostNum withoutExt with
  | some p => p
  | none =>
    match findSub postMarker withoutExt with
    | some i =>
      let afterPost := withoutExt.drop i
      match indexOfFrom '_' afterPost 5 with
      | some j => afterPost.take j
      | none => afterPost
    | none => withoutExt

/-- The capture filename `<full-id>_frame<counter>_<epoch-ms>.jpg` written
by `captureFrame` in the electron main process, for a full id
`post_<ds>_<ts>` (all three numeric parts given as digit strings). -/
def makeCaptureFilename (ds tds ns ts : List Char) : List Char :=
  postMarker ++ ds ++ ['_'] ++ tds ++
    ['_', 'f', 'r', 'a', 'm', 'e'] ++ ns ++ ['_'] ++ ts ++ jpgExt

lemma takeDigits_append_nondigit (ds : List Char) (c : Char) (rest : List Char)
    (hdig : ∀ d ∈ ds, d.isDigit) (hc : ¬ c.isDigit) :
    takeDigits (ds ++ c :: rest) = ds := by
  induction ds with
  | nil => simp [takeDigits, hc]
  | cons d ds ih =>
    have hd : d.isDigit := hdig d (by simp)
    simp only [List.cons_append, takeDigits, if_pos hd]
    show d :: takeDigits (ds ++ c :: rest) = d :: ds
    rw [ih (fun x hx => hdig x (by simp [hx]))]

lemma matchPostNum_canonical (ds : List Char) (rest : List Char)
    (hne : ds ≠ []) (hdig : ∀ d ∈ ds, d.isDigit) :
    matchPostNum (postMarker ++ ds ++ '_' :: rest) = some (postMarker ++ ds) := by
  unfold matchPostNum
  rw [if_pos (by exact ⟨ds ++ '_' :: rest, by simp [postMarker]⟩)]
  have hdrop : (postMarker ++ ds ++ '_' :: rest).drop 5 = ds ++ '_' :: rest := by
    have : postMarker ++ ds ++ '_' :: rest = postMarker ++ (ds ++ '_' :: rest) := by
      simp [List.append_assoc]
    rw [this]
    exact List.drop_left postMarker (ds ++ '_' :: rest)
  rw [hdrop, takeDigits_append_nondigit ds '_' rest hdig (by decide)]
  simp [hne]

lemma jpeg_not_suffix_of_jpg (y : List Char) : ¬ (jpegExt <:+ (y ++ jpgExt)) := by
  rintro ⟨p, hp⟩
  have h := congrArg List.reverse hp
  simp only [List.reverse_append, jpegExt, jpgExt] at h
  simp only [List.reverse_cons, List.reverse_nil, List.nil_append, List.cons_append,
    List.append_assoc] at h
  rw [List.cons.injEq, List.cons.injEq] at h
  exact absurd h.2.1 (by decide)

lemma stripImageExt_append_jpg (x : List Char) :
    stripImageExt (x ++ jpgExt) = x := by
  unfold stripImageExt
  have hmap : (x ++ jpgExt).map Char.toLower = x.map Char.toLower ++ jpgExt := by
    rw [List.map_append]
    rfl
  rw [hmap, if_neg (jpeg_not_suffix_of_jpg (x.map Char.toLower)),
    if_pos ⟨x.map Char.toLower, rfl⟩]
  have hlen : (x ++ jpgExt).length - 4 = x.length := by
    simp [jpgExt]
  rw [hlen]
  exact List.take_left x jpgExt

/-- C2: for every base id `post_<ds>` (digits `ds` nonempty), every
timestamp part, frame counter and write timestamp (digit strings), the
file watcher's `extractPostId` applied to the capture filename
`<full-id>_frame<n>_<t>.jpg` recovers the base id, and `extractBasePostId`
applied to the full id `post_<ds>_<tds>` also returns `post_<ds>`. -/
theorem C2_filename_roundtrip (ds tds ns ts : List Char)
    (hne : ds ≠ []) (hdig : ∀ d ∈ ds, d.isDigit) :
    extractPostId (makeCaptureFilename ds tds ns ts) = postMarker ++ ds
    ∧ extractBasePostId (postMarker ++ ds ++ '_' :: tds) = postMarker ++ ds := by
  constructor
  · unfold extractPostId makeCaptureFilename
    have hshape : postMarker ++ ds ++ ['_'] ++ tds ++ ['_', 'f', 'r', 'a', 'm', 'e']
        ++ ns ++ ['_'] ++ ts ++ jpgExt
        = (postMarker ++ ds ++ '_' :: (tds ++ ['_', 'f', 'r', 'a', 'm', 'e']
            ++ ns ++ ['_'] ++ ts)) ++ jpgExt := by
      simp [List.append_assoc]
    rw [hshape, stripImageExt_append_jpg]
    simp only [matchPostNum_canonical ds
      (tds ++ ['_', 'f', 'r', 'a', 'm', 'e'] ++ ns ++ ['_'] ++ ts) hne hdig]
  · unfold extractBasePostId
    rw [matchPostNum_canonical ds tds hne hdig]
    rfl

/-- Witness for `C2_filename_roundtrip` at the concrete full id
`post_1_1768711195270`, frame 0, timestamp 1768711199555. -/
theorem C2_filename_roundtrip_witness :
    extractPostId (makeCaptureFilename ['1'] "1768711195270".toList ['0']
        "1768711199555".toList) = postMarker ++ ['1']
    ∧ extractBasePostId (postMarker ++ ['1'] ++ '_' :: "1768711195270".toList)
        = postMarker ++ ['1'] :=
  C2_filename_roundtrip ['1'] "1768711195270".toList ['0'] "1768711199555".toList
    (by decide) (by decide)

/-! ## Frame uploader / batcher (fileWatcher.ts)

`processNewFile` is the debounced callback fired for a filesystem event;
its external effects (the `fs.promises.stat` outcome and the HTTP POST
outcome) are oracle booleans on the event.  `sendImageBatchToAPI` catches
every error and changes no state, so the HTTP outcome is threaded but has
no effect — exactly as in the source, where the `catch` block only logs. -/

/-- `BATCH_SIZE` from fileWatcher.ts. -/
def BATCH_SIZE : Nat := 1

/-- One filesystem event delivered to `processNewFile`, with the oracle
outcomes of the `stat` call and of the HTTP POST. -/
structure WFileEvent where
  fileName : List Char
  statOk : Bool
  isFile : Bool
  sendOk : Bool

/-- The module-scope state of fileWatcher.ts: the processed-file set, the
submission ledger `sentPostIds`, and the per-post queue map. -/
structure WatcherState where
  processedFiles : List (List Char)
  sentPostIds : List (List Char)
  fileQueue : List (List Char × List (List Char))
deriving DecidableEq

/-- Observable effect of the uploader: one POST of a batch to
`/analyze/<postId>`. -/
inductive WAction where
  | postBatch (postId : List Char) (files : List (List Char))
deriving DecidableEq

/-- `fileName.toLowerCase().endsWith('.jpg') || … .endsWith('.jpeg')`. -/
def endsWithJpg (name : List Char) : Bool :=
  let low := name.map Char.toLower
  decide (jpgExt <:+ low) || decide (jpegExt <:+ low)

/-- `fileQueue.get(postId)` on the association-list model (`Map.set` is
modelled by shadowing cons, `Map.get` by first match). -/
def queueGet (q : List (List Char × List (List Char))) (k : List Char) :
    List (List Char) :=
  (((q.find? (fun e => e.1 == k)).map (fun e => e.2)).getD [])

/-- `sendImageBatchToAPI`: skips the POST when the batch size is wrong;
otherwise performs the POST.  Every error (including a failed HTTP call,
`sendOk = false`) is caught and only logged: the state is unchanged and
in particular the ledger keeps its entries. -/
def sendImageBatchToAPI (s : WatcherState) (filePaths : List (List Char))
    (postId : List Char) (sendOk : Bool) : WatcherState × List WAction :=
  if filePaths.length ≠ BATCH_SIZE then (s, [])
  else (s, [WAction.postBatch postId filePaths])

/-- `processNewFile` from fileWatcher.ts.  The JS `fileQueue` is a `Map`
whose arrays are mutated in place (ensure-entry, `push`, then `splice` on
a full batch); the model shadows the map entry with the updated queue at
each mutation, so a lookup always sees the newest value. -/
def processNewFile (s : WatcherState) (ev : WFileEvent) :
    WatcherState × List WAction :=
  if ¬ endsWithJpg ev.fileName then (s, [])
  else if ev.fileName ∈ s.processedFiles then (s, [])
  else if ¬ (ev.statOk && ev.isFile) then (s, [])
  else if extractPostId ev.fileName ∈ s.sentPostIds then
    ({ s with processedFiles := ev.fileName :: s.processedFiles }, [])
  else if (queueGet s.fileQueue (extractPostId ev.fileName) ++ [ev.fileName]).length
      = BATCH_SIZE then
    sendImageBatchToAPI
      { s with
          processedFiles := ev.fileName :: s.processedFiles,
          sentPostIds := extractPostId ev.fileName :: s.sentPostIds,
          fileQueue :=
            (extractPostId ev.fileName,
              (queueGet s.fileQueue (extractPostId ev.fileName) ++ [ev.fileName]).drop
                BATCH_SIZE) ::
            (extractPostId ev.fileName,
              queueGet s.fileQueue (extractPostId ev.fileName) ++ [ev.fileName]) ::
            s.fileQueue }
      ((queueGet s.fileQueue (extractPostId ev.fileName) ++ [ev.fileName]).take BATCH_SIZE)
      (extractPostId ev.fileName) ev.sendOk
  else
    ({ s with
        processedFiles := ev.fileName :: s.processedFiles,
        fileQueue :=
          (extractPostId ev.fileName,
            queueGet s.fileQueue (extractPostId ev.fileName) ++ [ev.fileName]) ::
          s.fileQueue }, [])

/-- Fold `processNewFile` over a sequence of debounce-flushed events,
concatenating the emitted POSTs. -/
def runWatcher (s : WatcherState) : List WFileEvent → WatcherState × List WAction
  | [] => (s, [])
  | e :: es =>
    let r1 := processNewFile s e
    let r2 := runWatcher r1.1 es
    (r2.1, r1.2 ++ r2.2)

/-- The state at module load: all three collections empty. -/
def initWatcherState : WatcherState := ⟨[], [], []⟩

/-- Number of POSTed batches for a given post id in an action trace. -/
def countBatches (tr : List WAction) (pid : List Char) : Nat :=
  (tr.filter (fun a => match a with | .postBatch q _ => q == pid)).length

lemma countBatches_nil (pid : List Char) : countBatches [] pid = 0 := rfl

lemma countBatches_single (q : List Char) (files : List (List Char)) (pid : List Char) :
    countBatches [WAction.postBatch q files] pid = if q = pid then 1 else 0 := by
  unfold countBatches
  by_cases h : q = pid
  · simp [List.filter, h]
  · have hb : (q == pid) = false := beq_eq_false_iff_ne.mpr h
    simp [List.filter, hb, h]

lemma countBatches_append (t1 t2 : List WAction) (pid : List Char) :
    countBatches (t1 ++ t2) pid = countBatches t1 pid + countBatches t2 pid := by
  unfold countBatches
  rw [List.filter_append, List.length_append]

/-- Case analysis of one `processNewFile` step: either the ledger is
untouched and nothing is POSTed, or exactly one batch is POSTed for the
file's base id, which was not in the ledger before and is afterwards. -/
lemma processNewFile_cases (s : WatcherState) (ev : WFileEvent) :
    ((processNewFile s ev).1.sentPostIds = s.sentPostIds ∧ (processNewFile s ev).2 = [])
    ∨ (∃ files,
        (processNewFile s ev).2 = [WAction.postBatch (extractPostId ev.fileName) files]
        ∧ (processNewFile s ev).1.sentPostIds = extractPostId ev.fileName :: s.sentPostIds
        ∧ extractPostId ev.fileName ∉ s.sentPostIds) := by
  unfold processNewFile sendImageBatchToAPI
  split_ifs with h1 h2 h3 h4 h5 h6 <;>
    first
      | exact Or.inl ⟨rfl, rfl⟩
      | -- the skip-branch of the send: the taken batch would have the wrong
        -- size, impossible when the queue length equals BATCH_SIZE
        (exfalso; apply h6; rw [List.length_take, h5]; exact Nat.min_self BATCH_SIZE)
      | exact Or.inr ⟨_, rfl, rfl, h4⟩

lemma processNewFile_sent_mono (s : WatcherState) (ev : WFileEvent) :
    ∀ pid ∈ s.sentPostIds, pid ∈ (processNewFile s ev).1.sentPostIds := by
  intro pid hpid
  rcases processNewFile_cases s ev with ⟨hs, _⟩ | ⟨files, _, hs, _⟩ <;> rw [hs]
  · exact hpid
  · exact List.mem_cons_of_mem _ hpid

lemma runWatcher_sent_mono (s : WatcherState) (evs : List WFileEvent) :
    ∀ pid ∈ s.sentPostIds, pid ∈ (runWatcher s evs).1.sentPostIds := by
  induction evs generalizing s with
  | nil => intro pid hpid; simpa [runWatcher] using hpid
  | cons e es ih =>
    intro pid hpid
    simp only [runWatcher]
    exact ih _ _ (processNewFile_sent_mono s e pid hpid)

lemma runWatcher_no_post_of_sent (s : WatcherState) (evs : List WFileEvent)
    (pid : List Char) (hpid : pid ∈ s.sentPostIds) :
    countBatches (runWatcher s evs).2 pid = 0 := by
  induction evs generalizing s with
  | nil => simp [runWatcher, countBatches_nil]
  | cons e es ih =>
    simp only [runWatcher, countBatches_append]
    have hstep : countBatches (processNewFile s e).2 pid = 0 := by
      rcases processNewFile_cases s e with ⟨_, ht⟩ | ⟨files, ht, _, hnot⟩ <;> rw [ht]
      · exact countBatches_nil pid
      · rw [countBatches_single, if_neg]
        intro hq
        exact hnot (hq ▸ hpid)
    rw [hstep, ih _ (processNewFile_sent_mono s e pid hpid)]

lemma runWatcher_at_most_one (s : WatcherState) (evs : List WFileEvent)
    (pid : List Char) :
    countBatches (runWatcher s evs).2 pid ≤ 1 := by
  induction evs generalizing s with
  | nil => simp [runWatcher, countBatches_nil]
  | cons e es ih =>
    simp only [runWatcher, countBatches_append]
    rcases processNewFile_cases s e with ⟨_, ht⟩ | ⟨files, ht, hs, _⟩ <;> rw [ht]
    · rw [countBatches_nil]
      simpa using ih (processNewFile s e).1
    · rw [countBatches_single]
      by_cases hq : extractPostId e.fileName = pid
      · rw [if_pos hq]
        have : countBatches (runWatcher (processNewFile s e).1 es).2 pid = 0 :=
          runWatcher_no_post_of_sent _ es pid (by rw [hs, hq]; exact List.mem_cons_self _ _)
        omega
      · rw [if_neg hq]
        have := ih (processNewFile s e).1
        omega

/-- C3: for any sequence of file events processed by the uploader, at most
one batch is POSTed per base post id; once a base id is in the submission
ledger every later file for it produces no POST (and the id stays in the
ledger); and a failed POST leaves the state exactly as a successful one
does, so the batch is never retried within a run. -/
theorem C3_at_most_one_batch (evs : List WFileEvent) (pid : List Char) :
    countBatches (runWatcher initWatcherState evs).2 pid ≤ 1
    ∧ (∀ s : WatcherState, pid ∈ s.sentPostIds →
        countBatches (runWatcher s evs).2 pid = 0
        ∧ pid ∈ (runWatcher s evs).1.sentPostIds)
    ∧ (∀ (s : WatcherState) (files : List (List Char)) (p : List Char),
        (sendImageBatchToAPI s files p false).1 = s
        ∧ (sendImageBatchToAPI s files p false).1
            = (sendImageBatchToAPI s files p true).1) := by
  refine ⟨runWatcher_at_most_one _ evs pid, fun s hs => ?_, fun s files p => ?_⟩
  · exact ⟨runWatcher_no_post_of_sent s evs pid hs,
      runWatcher_sent_mono s evs pid hs⟩
  · unfold sendImageBatchToAPI
    split_ifs <;> simp

/-- Witness for `C3_at_most_one_batch`: one concrete capture file event;
the ledger hypothesis is discharged at a state already holding `post_1`. -/
theorem C3_at_most_one_batch_witness :
    countBatches (runWatcher initWatcherState
        [⟨"post_1_170_frame0_171.jpg".toList, true, true, false⟩]).2
        "post_1".toList ≤ 1
    ∧ countBatches (runWatcher ⟨[], ["post_1".toList], []⟩
        [⟨"post_1_170_frame0_171.jpg".toList, true, true, false⟩]).2
        "post_1".toList = 0 :=
  ⟨(C3_at_most_one_batch [⟨"post_1_170_frame0_171.jpg".toList, true, true, false⟩]
      "post_1".toList).1,
    ((C3_at_most_one_batch [⟨"post_1_170_frame0_171.jpg".toList, true, true, false⟩]
      "post_1".toList).2.1 ⟨[], ["post_1".toList], []⟩ (by decide)).1⟩

/-! ## Screen capture cropping (screenshot.ts `captureAndCrop`)

JS `Math.round` on the rational products is Mathlib's `round` (both are
`⌊x + 1/2⌋`, including for negative arguments).  The display query, the
thumbnail acquisition and the final `NativeImage.crop` are external; their
observable outcomes (source availability, thumbnail size and emptiness,
cropped-image emptiness) are inputs of the model. -/

/-- Padding constants from screenshot.ts (all zero). -/
def PADDING_TOP : ℚ := 0

def PADDING_BOTTOM : ℚ := 0

def PADDING_LEFT : ℚ := 0

def PADDING_RIGHT : ℚ := 0

/-- `CropRegion` from screenshot.ts. -/
structure CropRegion where
  x : ℚ
  y : ℚ
  w : ℚ
  h : ℚ
  dpr : ℚ

/-- The external facts `captureAndCrop` observes: the primary display's
logical size and scale factor, the number of screen sources, and the
acquired thumbnail (its pixel size and whether Electron reports it, or
the cropped result, as empty). -/
structure CaptureEnv where
  screenWidth : ℚ
  screenHeight : ℚ
  scaleFactor : ℚ
  sourcesCount : Nat
  thumbEmpty : Bool
  thumbWidth : ℤ
  thumbHeight : ℤ
  croppedEmpty : Bool

/-- `thumbScaleX = thumbSize.width / physicalWidth`. -/
def thumbScaleX (env : CaptureEnv) : ℚ :=
  (env.thumbWidth : ℚ) / (env.screenWidth * env.scaleFactor)

/-- `thumbScaleY = thumbSize.height / physicalHeight`. -/
def thumbScaleY (env : CaptureEnv) : ℚ :=
  (env.thumbHeight : ℚ) / (env.screenHeight * env.scaleFactor)

/-- `cropX = Math.round(paddedX * scaleFactor * thumbScaleX)`. -/
def cropX (region : CropRegion) (env : CaptureEnv) : ℤ :=
  round ((region.x - PADDING_LEFT) * env.scaleFactor * thumbScaleX env)

/-- `cropY = Math.round(paddedY * scaleFactor * thumbScaleY)`. -/
def cropY (region : CropRegion) (env : CaptureEnv) : ℤ :=
  round ((region.y - PADDING_TOP) * env.scaleFactor * thumbScaleY env)

/-- `cropW = Math.round(paddedW * scaleFactor * thumbScaleX)`. -/
def cropW (region : CropRegion) (env : CaptureEnv) : ℤ :=
  round ((region.w + PADDING_LEFT + PADDING_RIGHT) * env.scaleFactor * thumbScaleX env)

/-- `cropH = Math.round(paddedH * scaleFactor * thumbScaleY)`. -/
def cropH (region : CropRegion) (env : CaptureEnv) : ℤ :=
  round ((region.h + PADDING_TOP + PADDING_BOTTOM) * env.scaleFactor * thumbScaleY env)

/-- `clampedX = Math.max(0, Math.min(cropX, thumbSize.width - 1))`. -/
def clampedX (region : CropRegion) (env : CaptureEnv) : ℤ :=
  max 0 (min (cropX region env) (env.thumbWidth - 1))

/-- `clampedY = Math.max(0, Math.min(cropY, thumbSize.height - 1))`. -/
def clampedY (region : CropRegion) (env : CaptureEnv) : ℤ :=
  max 0 (min (cropY region env) (env.thumbHeight - 1))

/-- `clampedW = Math.min(cropW, thumbSize.width - clampedX)`. -/
def clampedW (region : CropRegion) (env : CaptureEnv) : ℤ :=
  min (cropW region env) (env.thumbWidth - clampedX region env)

/-- `clampedH = Math.min(cropH, thumbSize.height - clampedY)`. -/
def clampedH (region : CropRegion) (env : CaptureEnv) : ℤ :=
  min (cropH region env) (env.thumbHeight - clampedY region env)

/-- `captureAndCrop` from screenshot.ts, returning the crop rectangle of
the produced JPEG (`x`, `y`, `width`, `height`), or `none` for every
cleanly-skipped attempt (no sources, empty thumbnail, non-positive crop
area, empty cropped image). -/
def captureAndCrop (region : CropRegion) (env : CaptureEnv) :
    Option (ℤ × ℤ × ℤ × ℤ) :=
  if env.sourcesCount = 0 then none
  else if env.thumbEmpty then none
  else if clampedW region env ≤ 0 ∨ clampedH region env ≤ 0 then none
  else if env.croppedEmpty then none
  else some (clampedX region env, clampedY region env,
    clampedW region env, clampedH region env)

/-- C8: for every capture rectangle (negative or off-screen coordinates
included), `captureAndCrop` computes each crop coordinate as
`round(value · scaleFactor · thumbScale)` clamped into the acquired image
bounds, and either returns a crop whose width and height are the clamped
values with positive area and which lies inside the image, or returns
`none` (a clean skip) — in particular whenever the clamped area is
non-positive. -/
theorem C8_capture_clamps (region : CropRegion) (env : CaptureEnv) :
    ((clampedW region env ≤ 0 ∨ clampedH region env ≤ 0) →
      captureAndCrop region env = none)
    ∧ (∀ x y w h : ℤ, captureAndCrop region env = some (x, y, w, h) →
        x = max 0 (min (round (region.x * env.scaleFactor * thumbScaleX env))
              (env.thumbWidth - 1))
        ∧ y = max 0 (min (round (region.y * env.scaleFactor * thumbScaleY env))
              (env.thumbHeight - 1))
        ∧ w = clampedW region env
        ∧ h = clampedH region env
        ∧ 0 < w ∧ 0 < h
        ∧ 0 ≤ x ∧ x + w ≤ env.thumbWidth
        ∧ 0 ≤ y ∧ y + h ≤ env.thumbHeight) := by
  constructor
  · intro harea
    unfold captureAndCrop
    split_ifs <;> rfl
  · intro x y w h hsome
    unfold captureAndCrop at hsome
    split_ifs at hsome with hs ht harea hc
    push_neg at harea
    obtain ⟨hw, hh⟩ := harea
    rw [Option.some.injEq, Prod.mk.injEq, Prod.mk.injEq, Prod.mk.injEq] at hsome
    obtain ⟨hx, hy, hw2, hh2⟩ := hsome
    subst hx; subst hy; subst hw2; subst hh2
    refine ⟨?_, ?_, rfl, rfl, lt_of_not_le fun hle => absurd hle (not_le.mpr hw), ?_, ?_, ?_, ?_, ?_⟩
    · unfold clampedX cropX PADDING_LEFT
      rw [sub_zero]
    · unfold clampedY cropY PADDING_TOP
      rw [sub_zero]
    · exact hh
    · exact le_max_left 0 _
    · have h1 : clampedW region env ≤ env.thumbWidth - clampedX region env :=
        min_le_right _ _
      omega
    · exact le_max_left 0 _
    · have h1 : clampedH region env ≤ env.thumbHeight - clampedY region env :=
        min_le_right _ _
      omega

/-- Witness for `C8_capture_clamps`: a post partially off screen
(`x = -50`) on a 2× display with an exact-size thumbnail still yields a
positive, in-bounds crop. -/
theorem C8_capture_clamps_witness :
    captureAndCrop ⟨-50, 100, 400, 800, 2⟩ ⟨1512, 982, 2, 1, false, 3024, 1964, false⟩
      = some (0, 200, 800, 1600)
    ∧ (0 : ℤ) < 800 ∧ (0 : ℤ) + 800 ≤ 3024 :=
  have hsome : captureAndCrop ⟨-50, 100, 400, 800, 2⟩
      ⟨1512, 982, 2, 1, false, 3024, 1964, false⟩ = some (0, 200, 800, 1600) := by
    norm_num [captureAndCrop, clampedX, clampedY, clampedW, clampedH,
      cropX, cropY, cropW, cropH, thumbScaleX, thumbScaleY,
      PADDING_LEFT, PADDING_TOP, PADDING_RIGHT, PADDING_BOTTOM, round_eq]
  have h := (C8_capture_clamps ⟨-50, 100, 400, 800, 2⟩
    ⟨1512, 982, 2, 1, false, 3024, 1964, false⟩).2 0 200 800 1600 hsome
  ⟨hsome, h.2.2.2.2.1, by norm_num [h.2.2.2.2.2.2.2.1]⟩

/-! ## Per-post session core (electron main process, main.ts)

The module-scope mutable variables of main.ts become the fields of
`CoreState`; each asynchronous callback (sensor message, settle-timer
fire, capture-interval tick, api-websocket message/close, detection
toggle, sensor-client disconnect) becomes an event of a step function.
Each handler returns the new state together with the list of externally
observable actions it performed, in program order.  JS loose points
mirrored exactly: `currentPost?.post?.id === currentScreenshotPostId`
compares an possibly-`undefined` string to a possibly-`null` one, which
is `false` unless both sides are strings (`jsStrEq`); clearing a timer
makes its callback unfireable; `new WebSocket` may throw (`connectOk`);
`captureAndCrop` may return null (`captureOk`). -/

/-- The `post` record of a DOM sensor location message. -/
structure SensorPost where
  id : String
  x : ℚ
  y : ℚ
  w : ℚ
  h : ℚ
deriving DecidableEq

/-- A DOM sensor location message (the fields the core reads). -/
structure DomSensorMessage where
  post : Option SensorPost
  dpr : ℚ
deriving DecidableEq

/-- `DetectionResult` from types.ts. -/
structure DetectionResult where
  postId : String
  score : ℚ
  label : String
  timestamp : Nat
deriving DecidableEq

/-- `OverlayState` from types.ts. -/
structure OverlayState where
  visible : Bool
  x : ℚ
  y : ℚ
  w : ℚ
  h : ℚ
  label : String
  score : ℚ
  postId : Option String
  showDebugBox : Bool
deriving DecidableEq

/-- `CACHE_TTL_MS` from main.ts. -/
def CACHE_TTL_MS : Nat := 5000

/-- `DETECTION_THROTTLE_MS` from main.ts. -/
def DETECTION_THROTTLE_MS : Nat := 2000

/-- `SCREENSHOT_INTERVAL_MS` from main.ts. -/
def SCREENSHOT_INTERVAL_MS : Nat := 1000

/-- `SCREENSHOT_START_DELAY_MS` from main.ts. -/
def SCREENSHOT_START_DELAY_MS : Nat := 200

/-- The module-scope state of main.ts.  Sockets are given fresh numeric
handles; `openConns` lists the api websockets created and not yet closed
(by us or by the server), `apiWebSocket`/`currentApiPostId` are the
module variables of the same names.  `lastOverlay` records the last
overlay state sent to the renderer. -/
structure CoreState where
  currentPost : Option DomSensorMessage
  detectionCache : List (String × DetectionResult)
  lastDetectionTime : Nat
  detectionInFlight : Bool
  lastScreenshotBuffer : Bool
  showDebugBox : Bool
  detectionEnabled : Bool
  nextConnId : Nat
  openConns : List (Nat × String)
  apiWebSocket : Option Nat
  currentApiPostId : Option String
  screenshotLoop : Bool
  screenshotStartDelay : Bool
  currentScreenshotPostId : Option String
  frameCounter : Nat
  overlayLive : Bool
  lastOverlay : Option OverlayState
deriving DecidableEq

/-- Externally observable actions of the core, in program order. -/
inductive CoreAction where
  | cancelSettle
  | stopInterval
  | closeSubscription
  | openSubscription (base : String)
  | overlayUpdate (st : OverlayState)
  | saveFrame (postId : String) (frame : Nat) (now : Nat)
deriving DecidableEq

/-- `detectionCache.get(key)` (`Map.set` modelled by shadowing cons). -/
def cacheGet (m : List (String × DetectionResult)) (k : String) :
    Option DetectionResult :=
  (m.find? (fun e => e.1 == k)).map (fun e => e.2)

/-- `currentPost?.post?.id`. -/
def jsId (m : Option DomSensorMessage) : Option String :=
  (m.bind (fun msg => msg.post)).map (fun p => p.id)

/-- JS `===` between `string | undefined` and `string | null`: true only
when both sides are equal strings. -/
def jsStrEq (a b : Option String) : Bool :=
  match a, b with
  | some x, some y => x == y
  | _, _ => false

/-- `extractBasePostId` lifted to Lean `String`s (the core model keys
sockets and caches by `String`). -/
def extractBasePostIdStr (s : String) : String :=
  String.mk (extractBasePostId s.toList)

/-- `updateOverlay`: send the state to the overlay renderer if the window
is alive. -/
def updateOverlay (s : CoreState) (st : OverlayState) : CoreState × List CoreAction :=
  if s.overlayLive then
    ({ s with lastOverlay := some st }, [CoreAction.overlayUpdate st])
  else (s, [])

/-- `updateOverlayWithDetection`. -/
def updateOverlayWithDetection (s : CoreState) (p : SensorPost)
    (result : DetectionResult) : CoreState × List CoreAction :=
  updateOverlay s
    { visible := true, x := p.x, y := p.y, w := p.w, h := p.h,
      label := result.label, score := result.score,
      postId := some result.postId, showDebugBox := s.showDebugBox }

/-- The hidden overlay state sent on teardown. -/
def hiddenOverlayState : OverlayState :=
  { visible := false, x := 0, y := 0, w := 0, h := 0, label := "",
    score := 0, postId := none, showDebugBox := false }

/-- `stopScreenshotLoop`: clear the settle timer if pending, clear the
capture interval if running, null the loop's post id. -/
def stopScreenshotLoop (s : CoreState) : CoreState × List CoreAction :=
  let r1 : CoreState × List CoreAction :=
    if s.screenshotStartDelay then
      ({ s with screenshotStartDelay := false }, [CoreAction.cancelSettle])
    else (s, [])
  let r2 : CoreState × List CoreAction :=
    if r1.1.screenshotLoop then
      ({ r1.1 with screenshotLoop := false }, [CoreAction.stopInterval])
    else (r1.1, [])
  ({ r2.1 with currentScreenshotPostId := none }, r1.2 ++ r2.2)

/-- `disconnectApiWebSocket`: close and drop the tracked api socket. -/
def disconnectApiWebSocket (s : CoreState) : CoreState × List CoreAction :=
  match s.apiWebSocket with
  | some i =>
    ({ s with
        openConns := s.openConns.filter (fun c => c.1 ≠ i),
        apiWebSocket := none,
        currentApiPostId := none },
      [CoreAction.closeSubscription])
  | none => (s, [])

/-- `connectApiWebSocket`: reuse the socket when already connected for
the same base id; otherwise disconnect any previous socket and open a
new one (`connectOk = false`: the `new WebSocket` constructor threw and
the `catch` nulled both variables). -/
def connectApiWebSocket (s : CoreState) (postId : String) (connectOk : Bool) :
    CoreState × List CoreAction :=
  let basePostId := extractBasePostIdStr postId
  if s.apiWebSocket.isSome ∧ s.currentApiPostId = some basePostId then (s, [])
  else
    let r1 := disconnectApiWebSocket s
    if connectOk then
      ({ r1.1 with
          openConns := r1.1.openConns ++ [(r1.1.nextConnId, basePostId)],
          apiWebSocket := some r1.1.nextConnId,
          currentApiPostId := some basePostId,
          nextConnId := r1.1.nextConnId + 1 },
        r1.2 ++ [CoreAction.openSubscription basePostId])
    else
      ({ r1.1 with apiWebSocket := none, currentApiPostId := none }, r1.2)

/-- The capture-and-save tail of `captureFrame` (runs when no
non-pending cached result exists): on capture success, write the frame
file and bump the counter. -/
def captureSave (s : CoreState) (p : SensorPost) (captureOk : Bool) (now : Nat) :
    CoreState × List CoreAction :=
  if captureOk then
    ({ s with
        frameCounter := s.frameCounter + 1,
        lastScreenshotBuffer := true },
      [CoreAction.saveFrame p.id s.frameCounter now])
  else (s, [])

/-- `captureFrame`: consult the cache (no TTL check here); a
non-`Analyzing...` entry renders it and stops the loop, otherwise
capture and save one frame. -/
def captureFrame (s : CoreState) (message : DomSensorMessage)
    (captureOk : Bool) (now : Nat) : CoreState × List CoreAction :=
  match message.post with
  | none => (s, [])
  | some p =>
    match cacheGet s.detectionCache p.id with
    | some cached =>
      if cached.label ≠ analyzingLabel then
        let r1 := updateOverlayWithDetection s p cached
        let r2 := stopScreenshotLoop r1.1
        (r2.1, r1.2 ++ r2.2)
      else captureSave s p captureOk now
    | none => captureSave s p captureOk now

/-- `startScreenshotLoop`: no-op without a post or with detection
disabled; no-op when already capturing (or waiting) for the same post;
otherwise stop any existing loop, reset the counter, and schedule the
settle timer. -/
def startScreenshotLoop (s : CoreState) (message : DomSensorMessage) :
    CoreState × List CoreAction :=
  match message.post with
  | none => (s, [])
  | some p =>
    if ¬ s.detectionEnabled then (s, [])
    else if s.currentScreenshotPostId = some p.id
        ∧ (s.screenshotLoop ∨ s.screenshotStartDelay) then (s, [])
    else
      let r1 := stopScreenshotLoop s
      ({ r1.1 with
          currentScreenshotPostId := some p.id,
          frameCounter := 0,
          screenshotStartDelay := true }, r1.2)

/-- `triggerDetection` (atomic model): throttled one-shot capture that
only touches the throttle variables and the debug buffer. -/
def triggerDetection (s : CoreState) (message : DomSensorMessage)
    (now : Nat) (captureOk : Bool) : CoreState :=
  match message.post with
  | none => s
  | some _ =>
    if s.detectionInFlight ∨ now - s.lastDetectionTime < DETECTION_THROTTLE_MS then s
    else
      let s1 := { s with lastDetectionTime := now }
      if captureOk then { s1 with lastScreenshotBuffer := true } else s1

/-- The shared tail of the active-post path of `handleDomSensorMessage`:
show `Analyzing...` and trigger the throttled one-shot detection. -/
def sensorTail (s : CoreState) (p : SensorPost) (message : DomSensorMessage)
    (now : Nat) (captureOk : Bool) : CoreState × List CoreAction :=
  let r1 := updateOverlay s
    { visible := true, x := p.x, y := p.y, w := p.w, h := p.h,
      label := analyzingLabel, score := 0, postId := some p.id,
      showDebugBox := s.showDebugBox }
  (triggerDetection r1.1 message now captureOk, r1.2)

/-- The arming path of `handleDomSensorMessage` when no valid cached
verdict exists: connect the api websocket, start the screenshot loop,
then the shared tail. -/
def armAndTail (s : CoreState) (p : SensorPost) (message : DomSensorMessage)
    (now : Nat) (connectOk captureOk : Bool) : CoreState × List CoreAction :=
  let r1 := connectApiWebSocket s p.id connectOk
  let r2 := startScreenshotLoop r1.1 message
  let r3 := sensorTail r2.1 p message now captureOk
  (r3.1, r1.2 ++ r2.2 ++ r3.2)

/-- `handleDomSensorMessage` from main.ts. -/
def handleDomSensorMessage (s0 : CoreState) (message : DomSensorMessage)
    (now : Nat) (connectOk captureOk : Bool) : CoreState × List CoreAction :=
  let s : CoreState := { s0 with currentPost := some message }
  match message.post with
  | none =>
    let r1 := stopScreenshotLoop s
    let r2 := disconnectApiWebSocket r1.1
    let r3 := updateOverlay r2.1 hiddenOverlayState
    (r3.1, r1.2 ++ r2.2 ++ r3.2)
  | some p =>
    if s.detectionEnabled then
      match cacheGet s.detectionCache p.id with
      | some cached =>
        if cached.label ≠ analyzingLabel ∧ now - cached.timestamp < CACHE_TTL_MS then
          updateOverlayWithDetection s p cached
        else armAndTail s p message now connectOk captureOk
      | none => armAndTail s p message now connectOk captureOk
    else sensorTail s p message now captureOk

/-- The settle-timer callback scheduled by `startScreenshotLoop`
(fireable only while the timer is pending — `clearTimeout` removes it):
re-check that the current post is still the loop's post, then capture the
first frame and start the interval. -/
def settleFireStep (s : CoreState) (captureOk : Bool) (now : Nat) :
    CoreState × List CoreAction :=
  if ¬ s.screenshotStartDelay then (s, [])
  else
    let s0 : CoreState := { s with screenshotStartDelay := false }
    if jsStrEq (jsId s0.currentPost) s0.currentScreenshotPostId then
      match s0.currentPost with
      | some msg =>
        let r1 := captureFrame s0 msg captureOk now
        ({ r1.1 with screenshotLoop := true }, r1.2)
      | none => ({ s0 with screenshotLoop := true }, [])
    else stopScreenshotLoop s0

/-- The capture-interval callback (fireable only while the interval is
set): capture while the current post matches, stop otherwise. -/
def tickStep (s : CoreState) (captureOk : Bool) (now : Nat) :
    CoreState × List CoreAction :=
  if ¬ s.screenshotLoop then (s, [])
  else if jsStrEq (jsId s.currentPost) s.currentScreenshotPostId then
    match s.currentPost with
    | some msg => captureFrame s msg captureOk now
    | none => (s, [])
  else stopScreenshotLoop s

/-- The api-websocket `message` handler: ignore when no current post or
when the current post's base id differs from the subscription's; else
build the verdict with `mapApiResponseToLabel`, cache it under the full
current post id, render it, and stop the screenshot loop. -/
def wsResultStep (s : CoreState) (isAi : Bool) (confidence : ℚ) (now : Nat) :
    CoreState × List CoreAction :=
  match s.apiWebSocket, s.currentApiPostId with
  | some _, some basePostId =>
    match s.currentPost.bind (fun m => m.post) with
    | none => (s, [])
    | some p =>
      if extractBasePostIdStr p.id ≠ basePostId then (s, [])
      else
        let result : DetectionResult :=
          { postId := p.id, score := confidence,
            label := mapApiResponseToLabel isAi confidence, timestamp := now }
        let s1 : CoreState :=
          { s with detectionCache := (p.id, result) :: s.detectionCache }
        let r2 := updateOverlayWithDetection s1 p result
        let r3 := stopScreenshotLoop r2.1
        (r3.1, r2.2 ++ r3.2)
  | _, _ => (s, [])

/-- The api-websocket `close` handler (server closed the tracked
socket): the socket is gone; null the module variables. -/
def wsServerCloseStep (s : CoreState) : CoreState × List CoreAction :=
  match s.apiWebSocket with
  | some i =>
    ({ s with
        openConns := s.openConns.filter (fun c => c.1 ≠ i),
        apiWebSocket := none,
        currentApiPostId := none }, [])
  | none => (s, [])

/-- `toggleDetection` (control window IPC): flip the flag; stop the loop
when turning detection off. -/
def toggleDetection (s : CoreState) : CoreState × List CoreAction :=
  let s1 : CoreState := { s with detectionEnabled := ¬ s.detectionEnabled }
  if ¬ s1.detectionEnabled then stopScreenshotLoop s1 else (s1, [])

/-- The sensor websocket server's `close` handler: the source only logs
`DOM sensor disconnected`; no state is touched and no action performed. -/
def handleSensorDisconnect (s : CoreState) : CoreState × List CoreAction :=
  (s, [])

/-- Events that can reach the core: a sensor message (with the oracle
outcomes of `new WebSocket` and of the one-shot capture), a settle-timer
fire, an interval tick, an api-websocket push result, a server-side close
of the api websocket, a detection toggle, and a sensor disconnect. -/
inductive CoreEv where
  | sensor (message : DomSensorMessage) (now : Nat) (connectOk captureOk : Bool)
  | settleFire (captureOk : Bool) (now : Nat)
  | tick (captureOk : Bool) (now : Nat)
  | wsResult (isAi : Bool) (confidence : ℚ) (now : Nat)
  | wsServerClose
  | toggle
  | sensorDisconnect

/-- One step of the core. -/
def coreStep (s : CoreState) : CoreEv → CoreState × List CoreAction
  | .sensor m now cok kok => handleDomSensorMessage s m now cok kok
  | .settleFire kok now => settleFireStep s kok now
  | .tick kok now => tickStep s kok now
  | .wsResult a c now => wsResultStep s a c now
  | .wsServerClose => wsServerCloseStep s
  | .toggle => toggleDetection s
  | .sensorDisconnect => handleSensorDisconnect s

/-- Run a sequence of events, concatenating the performed actions. -/
def coreRun (s : CoreState) : List CoreEv → CoreState × List CoreAction
  | [] => (s, [])
  | e :: es =>
    let r1 := coreStep s e
    let r2 := coreRun r1.1 es
    (r2.1, r1.2 ++ r2.2)

/-- The module-load state of main.ts. -/
def initCoreState : CoreState :=
  { currentPost := none, detectionCache := [], lastDetectionTime := 0,
    detectionInFlight := false, lastScreenshotBuffer := false,
    showDebugBox := true, detectionEnabled := true, nextConnId := 0,
    openConns := [], apiWebSocket := none, currentApiPostId := none,
    screenshotLoop := false, screenshotStartDelay := false,
    currentScreenshotPostId := none, frameCounter := 0,
    overlayLive := true, lastOverlay := none }

/-! ## Teardown, disabled detection, cached verdicts (C9, C10, C5) -/

/-- C9: on a teardown signal (location message with `post == null`) the
handler cancels the pending settle timer, then stops the capture
interval, then closes the push subscription — in that order (each action
present exactly when the corresponding resource exists) — and then hides
the overlay. -/
theorem C9_teardown_order (s : CoreState) (message : DomSensorMessage)
    (now : Nat) (connectOk captureOk : Bool)
    (hpost : message.post = none) (hlive : s.overlayLive = true) :
    (handleDomSensorMessage s message now connectOk captureOk).2
      = (if s.screenshotStartDelay then [CoreAction.cancelSettle] else [])
        ++ (if s.screenshotLoop then [CoreAction.stopInterval] else [])
        ++ (if s.apiWebSocket.isSome then [CoreAction.closeSubscription] else [])
        ++ [CoreAction.overlayUpdate hiddenOverlayState]
    ∧ hiddenOverlayState.visible = false := by
  refine ⟨?_, rfl⟩
  unfold handleDomSensorMessage
  rw [hpost]
  unfold stopScreenshotLoop disconnectApiWebSocket updateOverlay
  cases h : s.apiWebSocket <;> split_ifs <;> simp_all

/-- Witness for `C9_teardown_order`: a state with a pending settle timer,
a running interval and an open subscription tears all three down in
order and hides the overlay. -/
theorem C9_teardown_order_witness :
    (handleDomSensorMessage
        { initCoreState with
            screenshotStartDelay := true,
            screenshotLoop := true,
            apiWebSocket := some 0,
            currentApiPostId := some "post_1",
            openConns := [(0, "post_1")] }
        ⟨none, 2⟩ 1000000 true true).2
      = [CoreAction.cancelSettle, CoreAction.stopInterval,
          CoreAction.closeSubscription, CoreAction.overlayUpdate hiddenOverlayState] := by
  have h := (C9_teardown_order
    { initCoreState with
        screenshotStartDelay := true,
        screenshotLoop := true,
        apiWebSocket := some 0,
        currentApiPostId := some "post_1",
        openConns := [(0, "post_1")] }
    ⟨none, 2⟩ 1000000 true true rfl rfl).1
  simpa using h

/-- C10: with detection disabled, a location event carrying a post starts
no capture loop, no settle timer and no subscription (all those fields
are untouched), yet still sends a visible overlay update labelled
`Analyzing...` with the post's rectangle. -/
theorem C10_disabled_still_shows_analyzing (s : CoreState)
    (message : DomSensorMessage) (p : SensorPost) (now : Nat)
    (connectOk captureOk : Bool)
    (hpost : message.post = some p) (hdis : s.detectionEnabled = false)
    (hlive : s.overlayLive = true) :
    (handleDomSensorMessage s message now connectOk captureOk).1.screenshotLoop
        = s.screenshotLoop
    ∧ (handleDomSensorMessage s message now connectOk captureOk).1.screenshotStartDelay
        = s.screenshotStartDelay
    ∧ (handleDomSensorMessage s message now connectOk captureOk).1.currentScreenshotPostId
        = s.currentScreenshotPostId
    ∧ (handleDomSensorMessage s message now connectOk captureOk).1.openConns
        = s.openConns
    ∧ (handleDomSensorMessage s message now connectOk captureOk).1.apiWebSocket
        = s.apiWebSocket
    ∧ (handleDomSensorMessage s message now connectOk captureOk).1.currentApiPostId
        = s.currentApiPostId
    ∧ (handleDomSensorMessage s message now connectOk captureOk).2
        = [CoreAction.overlayUpdate
            { visible := true, x := p.x, y := p.y, w := p.w, h := p.h,
              label := analyzingLabel, score := 0, postId := some p.id,
              showDebugBox := s.showDebugBox }] := by
  simp only [handleDomSensorMessage, hpost]
  simp only [hdis, Bool.false_eq_true, if_false, sensorTail, triggerDetection,
    updateOverlay, hpost, hlive, if_true]
  split_ifs <;> simp_all

/-- Witness for `C10_disabled_still_shows_analyzing` at a concrete
disabled state. -/
theorem C10_disabled_still_shows_analyzing_witness :
    (handleDomSensorMessage { initCoreState with detectionEnabled := false }
        ⟨some ⟨"post_9_5", 10, 20, 30, 40⟩, 1⟩ 1000000 true true).1.screenshotLoop
      = false
    ∧ (handleDomSensorMessage { initCoreState with detectionEnabled := false }
        ⟨some ⟨"post_9_5", 10, 20, 30, 40⟩, 1⟩ 1000000 true true).2
      = [CoreAction.overlayUpdate
          { visible := true, x := 10, y := 20, w := 30, h := 40,
            label := analyzingLabel, score := 0, postId := some "post_9_5",
            showDebugBox := true }] := by
  have h := C10_disabled_still_shows_analyzing
    { initCoreState with detectionEnabled := false }
    ⟨some ⟨"post_9_5", 10, 20, 30, 40⟩, 1⟩ ⟨"post_9_5", 10, 20, 30, 40⟩
    1000000 true true rfl rfl rfl
  exact ⟨h.1, h.2.2.2.2.2.2⟩

/-- C5: a non-`Analyzing...` cached verdict for the post suppresses and
stops capture: (a) a location event for the post whose cached entry is
within the TTL renders the cached verdict and leaves the loop state
untouched (no loop started); (b) a capture tick (`captureFrame`) with
such a cached entry (no TTL check in the source here) stops the loop and
captures nothing. -/
theorem C5_cached_verdict_stops_loop (s : CoreState)
    (message : DomSensorMessage) (p : SensorPost) (r : DetectionResult)
    (now : Nat) (connectOk captureOk : Bool)
    (hpost : message.post = some p)
    (hcache : cacheGet s.detectionCache p.id = some r)
    (hlabel : r.label ≠ analyzingLabel) :
    ((s.detectionEnabled = true → now - r.timestamp < CACHE_TTL_MS →
      s.overlayLive = true →
      (handleDomSensorMessage s message now connectOk captureOk).1.screenshotLoop
          = s.screenshotLoop
      ∧ (handleDomSensorMessage s message now connectOk captureOk).1.screenshotStartDelay
          = s.screenshotStartDelay
      ∧ (handleDomSensorMessage s message now connectOk captureOk).1.currentScreenshotPostId
          = s.currentScreenshotPostId
      ∧ (handleDomSensorMessage s message now connectOk captureOk).2
          = [CoreAction.overlayUpdate
              { visible := true, x := p.x, y := p.y, w := p.w, h := p.h,
                label := r.label, score := r.score, postId := some r.postId,
                showDebugBox := s.showDebugBox }]))
    ∧ ((captureFrame s message captureOk now).1.screenshotLoop = false
      ∧ (captureFrame s message captureOk now).1.screenshotStartDelay = false
      ∧ (captureFrame s message captureOk now).1.currentScreenshotPostId = none
      ∧ ∀ pid n t, CoreAction.saveFrame pid n t ∉ (captureFrame s message captureOk now).2) := by
  constructor
  · intro hen httl hlive
    simp [handleDomSensorMessage, hpost, hen, hcache, hlabel, httl,
      updateOverlayWithDetection, updateOverlay, hlive]
  · simp only [captureFrame, hpost, hcache, hlabel, ne_eq, not_false_eq_true,
      if_true, updateOverlayWithDetection, updateOverlay, stopScreenshotLoop]
    split_ifs <;> simp_all

/-- Witness for `C5_cached_verdict_stops_loop`: a cached `Likely Real`
verdict for `post_3_3000`, re-entered 1 s later. -/
theorem C5_cached_verdict_stops_loop_witness :
    (handleDomSensorMessage
        { initCoreState with
            detectionCache := [("post_3_3000", ⟨"post_3_3000", 0.9, "Likely Real", 1000⟩)],
            screenshotLoop := true,
            currentScreenshotPostId := some "post_3_3000" }
        ⟨some ⟨"post_3_3000", 1, 2, 3, 4⟩, 1⟩ 2000 true true).2
      = [CoreAction.overlayUpdate
          { visible := true, x := 1, y := 2, w := 3, h := 4,
            label := "Likely Real", score := 0.9, postId := some "post_3_3000",
            showDebugBox := true }]
    ∧ (captureFrame
        { initCoreState with
            detectionCache := [("post_3_3000", ⟨"post_3_3000", 0.9, "Likely Real", 1000⟩)],
            screenshotLoop := true,
            currentScreenshotPostId := some "post_3_3000" }
        ⟨some ⟨"post_3_3000", 1, 2, 3, 4⟩, 1⟩ true 2000).1.screenshotLoop = false :=
  have h := C5_cached_verdict_stops_loop
    { initCoreState with
        detectionCache := [("post_3_3000", ⟨"post_3_3000", 0.9, "Likely Real", 1000⟩)],
        screenshotLoop := true,
        currentScreenshotPostId := some "post_3_3000" }
    ⟨some ⟨"post_3_3000", 1, 2, 3, 4⟩, 1⟩ ⟨"post_3_3000", 1, 2, 3, 4⟩
    ⟨"post_3_3000", 0.9, "Likely Real", 1000⟩ 2000 true true
    rfl rfl (by decide)
  ⟨(h.1 rfl (by decide) rfl).2.2.2, h.2.1⟩

/-! ## Sensor disconnect (C6)

The sensor server's `close` handler in the source only logs; it does not
hide the overlay, stop the loop, or close the result subscription. -/

/-- C6 counterexample: reach a state with a visible overlay, a pending
settle timer and an open subscription by delivering one location
message, then let the sensor client disconnect: nothing is reset and no
action is performed, contradicting the claim that the core resets all
per-session state to "no active post" on disconnect. -/
theorem C6_counterexample :
    (handleSensorDisconnect
        (coreRun initCoreState
          [CoreEv.sensor ⟨some ⟨"post_1_1000", 100, 100, 400, 800⟩, 2⟩
            1000000 true true]).1).1
      = (coreRun initCoreState
          [CoreEv.sensor ⟨some ⟨"post_1_1000", 100, 100, 400, 800⟩, 2⟩
            1000000 true true]).1
    ∧ (coreRun initCoreState
        [CoreEv.sensor ⟨some ⟨"post_1_1000", 100, 100, 400, 800⟩, 2⟩
          1000000 true true]).1.screenshotStartDelay = true
    ∧ (coreRun initCoreState
        [CoreEv.sensor ⟨some ⟨"post_1_1000", 100, 100, 400, 800⟩, 2⟩
          1000000 true true]).1.apiWebSocket = some 0
    ∧ ((coreRun initCoreState
        [CoreEv.sensor ⟨some ⟨"post_1_1000", 100, 100, 400, 800⟩, 2⟩
          1000000 true true]).1.lastOverlay.map (fun st => st.visible)) = some true
    ∧ (handleSensorDisconnect
        (coreRun initCoreState
          [CoreEv.sensor ⟨some ⟨"post_1_1000", 100, 100, 400, 800⟩, 2⟩
            1000000 true true]).1).2 = [] := by
  refine ⟨rfl, ?_, ?_, ?_, rfl⟩ <;> decide

/-- C6 (amended): when the sensor socket client disconnects, the core
performs no reset at all — appending a disconnect event to any run
leaves both the final state and the action trace unchanged; per-session
state is only reset by a location message with `post == null`. -/
theorem C6_amended_disconnect_resets_nothing (s : CoreState) (evs : List CoreEv) :
    coreRun s (evs ++ [CoreEv.sensorDisconnect]) = coreRun s evs := by
  induction evs generalizing s with
  | nil => simp [coreRun, coreStep, handleSensorDisconnect]
  | cons e es ih =>
    simp only [List.cons_append, coreRun, List.append_eq]
    rw [ih]

/-! ## Settle cancellation on post change (C7) -/

/-- An event is a sensor message naming post id `pid`. -/
def carriesPostId (e : CoreEv) (pid : String) : Prop :=
  match e with
  | .sensor m _ _ _ => (m.post.map (fun p => p.id)) = some pid
  | _ => False

/-- No frame file for post id `pid` occurs in an action trace. -/
def noFramesFor (pid : String) (tr : List CoreAction) : Prop :=
  ∀ n t, CoreAction.saveFrame pid n t ∉ tr

lemma noSave_stopScreenshotLoop (s : CoreState) (pid : String) (n t : Nat) :
    CoreAction.saveFrame pid n t ∉ (stopScreenshotLoop s).2 := by
  simp only [stopScreenshotLoop]
  split_ifs <;> simp

lemma noSave_disconnectApiWebSocket (s : CoreState) (pid : String) (n t : Nat) :
    CoreAction.saveFrame pid n t ∉ (disconnectApiWebSocket s).2 := by
  unfold disconnectApiWebSocket
  cases s.apiWebSocket <;> simp

lemma noSave_connectApiWebSocket (s : CoreState) (postId : String) (cok : Bool)
    (pid : String) (n t : Nat) :
    CoreAction.saveFrame pid n t ∉ (connectApiWebSocket s postId cok).2 := by
  have hd := noSave_disconnectApiWebSocket s pid n t
  simp only [connectApiWebSocket]
  split_ifs <;> simp_all

lemma noSave_updateOverlay (s : CoreState) (st : OverlayState)
    (pid : String) (n t : Nat) :
    CoreAction.saveFrame pid n t ∉ (updateOverlay s st).2 := by
  unfold updateOverlay
  split_ifs <;> simp

lemma noSave_updateOverlayWithDetection (s : CoreState) (p : SensorPost)
    (r : DetectionResult) (pid : String) (n t : Nat) :
    CoreAction.saveFrame pid n t ∉ (updateOverlayWithDetection s p r).2 := by
  unfold updateOverlayWithDetection
  exact noSave_updateOverlay _ _ _ _ _

lemma noSave_startScreenshotLoop (s : CoreState) (m : DomSensorMessage)
    (pid : String) (n t : Nat) :
    CoreAction.saveFrame pid n t ∉ (startScreenshotLoop s m).2 := by
  have hs := noSave_stopScreenshotLoop s pid n t
  rcases hm : m.post with _ | p <;> simp only [startScreenshotLoop, hm] <;>
    (try split_ifs) <;> simp_all

lemma noSave_sensorTail (s : CoreState) (p : SensorPost) (m : DomSensorMessage)
    (now : Nat) (kok : Bool) (pid : String) (n t : Nat) :
    CoreAction.saveFrame pid n t ∉ (sensorTail s p m now kok).2 := by
  have hu := noSave_updateOverlay s
    { visible := true, x := p.x, y := p.y, w := p.w, h := p.h,
      label := analyzingLabel, score := 0, postId := some p.id,
      showDebugBox := s.showDebugBox } pid n t
  unfold sensorTail
  simpa using hu

lemma noSave_armAndTail (s : CoreState) (p : SensorPost) (m : DomSensorMessage)
    (now : Nat) (cok kok : Bool) (pid : String) (n t : Nat) :
    CoreAction.saveFrame pid n t ∉ (armAndTail s p m now cok kok).2 := by
  have h1 := noSave_connectApiWebSocket s p.id cok pid n t
  have h2 := noSave_startScreenshotLoop (connectApiWebSocket s p.id cok).1 m pid n t
  have h3 := noSave_sensorTail
    (startScreenshotLoop (connectApiWebSocket s p.id cok).1 m).1 p m now kok pid n t
  unfold armAndTail
  simp only [List.mem_append, not_or]
  exact ⟨⟨h1, h2⟩, h3⟩

lemma noSave_handleDomSensorMessage (s : CoreState) (m : DomSensorMessage)
    (now : Nat) (cok kok : Bool) (pid : String) (n t : Nat) :
    CoreAction.saveFrame pid n t ∉ (handleDomSensorMessage s m now cok kok).2 := by
  have h1 : ∀ u : CoreState, CoreAction.saveFrame pid n t ∉ (stopScreenshotLoop u).2 :=
    fun u => noSave_stopScreenshotLoop u pid n t
  have h2 : ∀ u : CoreState, CoreAction.saveFrame pid n t ∉ (disconnectApiWebSocket u).2 :=
    fun u => noSave_disconnectApiWebSocket u pid n t
  have h3 : ∀ (u : CoreState) (st : OverlayState),
      CoreAction.saveFrame pid n t ∉ (updateOverlay u st).2 :=
    fun u st => noSave_updateOverlay u st pid n t
  have h4 : ∀ (u : CoreState) (p : SensorPost) (r : DetectionResult),
      CoreAction.saveFrame pid n t ∉ (updateOverlayWithDetection u p r).2 :=
    fun u p r => noSave_updateOverlayWithDetection u p r pid n t
  have h5 : ∀ (u : CoreState) (p : SensorPost),
      CoreAction.saveFrame pid n t ∉ (armAndTail u p m now cok kok).2 :=
    fun u p => noSave_armAndTail u p m now cok kok pid n t
  have h6 : ∀ (u : CoreState) (p : SensorPost),
      CoreAction.saveFrame pid n t ∉ (sensorTail u p m now kok).2 :=
    fun u p => noSave_sensorTail u p m now kok pid n t
  cases hm : m.post with
  | none => simp_all [handleDomSensorMessage, hm]
  | some p =>
    simp only [handleDomSensorMessage, hm]
    split_ifs with hen
    · rcases hc : cacheGet s.detectionCache p.id with _ | cached
      · simp only [hc]
        exact h5 _ _
      · simp only [hc]
        split_ifs with hhit
        · exact h4 _ _ _
        · exact h5 _ _
    · exact h6 _ _

lemma captureFrame_saveFrame_id (s : CoreState) (m : DomSensorMessage)
    (kok : Bool) (now : Nat) (pid : String) (n t : Nat)
    (hmem : CoreAction.saveFrame pid n t ∈ (captureFrame s m kok now).2) :
    (m.post.map (fun p => p.id)) = some pid := by
  cases hm : m.post with
  | none => simp only [captureFrame, hm] at hmem; simp at hmem
  | some p =>
    simp only [captureFrame, hm] at hmem
    rcases hc : cacheGet s.detectionCache p.id with _ | cached <;>
      simp only [hc] at hmem
    · simp only [captureSave] at hmem
      split_ifs at hmem <;> simp_all
    · split_ifs at hmem with hhit
      · have h4 := noSave_updateOverlayWithDetection s p cached pid n t
        have h1 := noSave_stopScreenshotLoop (updateOverlayWithDetection s p cached).1 pid n t
        simp only [List.mem_append] at hmem
        rcases hmem with h | h
        · exact absurd h h4
        · exact absurd h h1
      · simp only [captureSave] at hmem
        split_ifs at hmem <;> simp_all

lemma stopScreenshotLoop_currentPost (s : CoreState) :
    (stopScreenshotLoop s).1.currentPost = s.currentPost := by
  simp only [stopScreenshotLoop]
  split_ifs <;> rfl

lemma disconnectApiWebSocket_currentPost (s : CoreState) :
    (disconnectApiWebSocket s).1.currentPost = s.currentPost := by
  rcases h : s.apiWebSocket with _ | i <;> simp only [disconnectApiWebSocket, h]

lemma connectApiWebSocket_currentPost (s : CoreState) (postId : String) (cok : Bool) :
    (connectApiWebSocket s postId cok).1.currentPost = s.currentPost := by
  simp only [connectApiWebSocket]
  split_ifs <;> simp [disconnectApiWebSocket_currentPost]

lemma updateOverlay_currentPost (s : CoreState) (st : OverlayState) :
    (updateOverlay s st).1.currentPost = s.currentPost := by
  simp only [updateOverlay]
  split_ifs <;> rfl

lemma updateOverlayWithDetection_currentPost (s : CoreState) (p : SensorPost)
    (r : DetectionResult) :
    (updateOverlayWithDetection s p r).1.currentPost = s.currentPost := by
  simp only [updateOverlayWithDetection]
  exact updateOverlay_currentPost _ _

lemma captureSave_currentPost (s : CoreState) (p : SensorPost) (kok : Bool) (now : Nat) :
    (captureSave s p kok now).1.currentPost = s.currentPost := by
  simp only [captureSave]
  split_ifs <;> rfl

lemma captureFrame_currentPost (s : CoreState) (m : DomSensorMessage)
    (kok : Bool) (now : Nat) :
    (captureFrame s m kok now).1.currentPost = s.currentPost := by
  rcases hm : m.post with _ | p <;> simp only [captureFrame, hm]
  rcases hc : cacheGet s.detectionCache p.id with _ | cached <;> simp only [hc]
  · exact captureSave_currentPost _ _ _ _
  · split_ifs
    · rw [stopScreenshotLoop_currentPost, updateOverlayWithDetection_currentPost]
    · exact captureSave_currentPost _ _ _ _

lemma startScreenshotLoop_currentPost (s : CoreState) (m : DomSensorMessage) :
    (startScreenshotLoop s m).1.currentPost = s.currentPost := by
  rcases hm : m.post with _ | p <;> simp only [startScreenshotLoop, hm]
  split_ifs <;> simp [stopScreenshotLoop_currentPost]

lemma triggerDetection_currentPost (s : CoreState) (m : DomSensorMessage)
    (now : Nat) (kok : Bool) :
    (triggerDetection s m now kok).currentPost = s.currentPost := by
  rcases hm : m.post with _ | p <;> simp only [triggerDetection, hm]
  split_ifs <;> rfl

lemma sensorTail_currentPost (s : CoreState) (p : SensorPost)
    (m : DomSensorMessage) (now : Nat) (kok : Bool) :
    (sensorTail s p m now kok).1.currentPost = s.currentPost := by
  simp only [sensorTail]
  rw [triggerDetection_currentPost, updateOverlay_currentPost]

lemma armAndTail_currentPost (s : CoreState) (p : SensorPost)
    (m : DomSensorMessage) (now : Nat) (cok kok : Bool) :
    (armAndTail s p m now cok kok).1.currentPost = s.currentPost := by
  simp only [armAndTail]
  rw [sensorTail_currentPost, startScreenshotLoop_currentPost,
    connectApiWebSocket_currentPost]

lemma handleDomSensorMessage_currentPost (s : CoreState) (m : DomSensorMessage)
    (now : Nat) (cok kok : Bool) :
    (handleDomSensorMessage s m now cok kok).1.currentPost = some m := by
  rcases hm : m.post with _ | p <;> simp only [handleDomSensorMessage, hm]
  · rw [updateOverlay_currentPost, disconnectApiWebSocket_currentPost,
      stopScreenshotLoop_currentPost]
  · split_ifs with hen
    · rcases hc : cacheGet s.detectionCache p.id with _ | cached <;> simp only [hc]
      · rw [armAndTail_currentPost]
      · split_ifs with hhit
        · rw [updateOverlayWithDetection_currentPost]
        · rw [armAndTail_currentPost]
    · rw [sensorTail_currentPost]

lemma settleFireStep_currentPost (s : CoreState) (kok : Bool) (now : Nat) :
    (settleFireStep s kok now).1.currentPost = s.currentPost := by
  rcases hc : s.currentPost with _ | msg <;> simp only [settleFireStep, hc] <;>
    split_ifs <;>
    simp_all [stopScreenshotLoop_currentPost, captureFrame_currentPost]

lemma tickStep_currentPost (s : CoreState) (kok : Bool) (now : Nat) :
    (tickStep s kok now).1.currentPost = s.currentPost := by
  rcases hc : s.currentPost with _ | msg <;> simp only [tickStep, hc] <;>
    split_ifs <;>
    simp_all [stopScreenshotLoop_currentPost, captureFrame_currentPost]

lemma wsResultStep_currentPost (s : CoreState) (isAi : Bool) (conf : ℚ) (now : Nat) :
    (wsResultStep s isAi conf now).1.currentPost = s.currentPost := by
  rcases h1 : s.apiWebSocket with _ | i <;>
    rcases h2 : s.currentApiPostId with _ | b <;>
    simp only [wsResultStep, h1, h2]
  rcases hp : s.currentPost.bind (fun m => m.post) with _ | p <;> simp only [hp]
  split_ifs
  · rfl
  · rw [stopScreenshotLoop_currentPost, updateOverlayWithDetection_currentPost]

lemma wsServerCloseStep_currentPost (s : CoreState) :
    (wsServerCloseStep s).1.currentPost = s.currentPost := by
  rcases h : s.apiWebSocket with _ | i <;> simp only [wsServerCloseStep, h]

lemma toggleDetection_currentPost (s : CoreState) :
    (toggleDetection s).1.currentPost = s.currentPost := by
  simp only [toggleDetection]
  split_ifs <;> simp [stopScreenshotLoop_currentPost]

lemma noSave_wsResultStep (s : CoreState) (isAi : Bool) (conf : ℚ) (now : Nat)
    (pid : String) (n t : Nat) :
    CoreAction.saveFrame pid n t ∉ (wsResultStep s isAi conf now).2 := by
  have h4 : ∀ (u : CoreState) (q : SensorPost) (r : DetectionResult),
      CoreAction.saveFrame pid n t ∉ (updateOverlayWithDetection u q r).2 :=
    fun u q r => noSave_updateOverlayWithDetection u q r pid n t
  have h1b : ∀ u : CoreState, CoreAction.saveFrame pid n t ∉ (stopScreenshotLoop u).2 :=
    fun u => noSave_stopScreenshotLoop u pid n t
  rcases h1 : s.apiWebSocket with _ | i <;>
    rcases h2 : s.currentApiPostId with _ | b <;>
    simp only [wsResultStep, h1, h2] <;> try simp
  rcases hp : s.currentPost.bind (fun m => m.post) with _ | p <;> simp only [hp]
  · simp
  · split_ifs <;> simp_all

lemma coreStep_noSave (s : CoreState) (e : CoreEv) (pid : String) (n t : Nat)
    (hcur : jsId s.currentPost ≠ some pid) :
    CoreAction.saveFrame pid n t ∉ (coreStep s e).2 := by
  cases e with
  | sensor m now cok kok => exact noSave_handleDomSensorMessage s m now cok kok pid n t
  | settleFire kok now =>
    show CoreAction.saveFrame pid n t ∉ (settleFireStep s kok now).2
    rcases hc : s.currentPost with _ | msg <;> simp only [settleFireStep, hc] <;>
      split_ifs <;> try simp
    · exact noSave_stopScreenshotLoop _ pid n t
    · intro hmem
      have hid := captureFrame_saveFrame_id _ msg kok now pid n t hmem
      apply hcur
      rw [hc]
      simpa [jsId] using hid
    · exact noSave_stopScreenshotLoop _ pid n t
  | tick kok now =>
    show CoreAction.saveFrame pid n t ∉ (tickStep s kok now).2
    rcases hc : s.currentPost with _ | msg <;> simp only [tickStep, hc] <;>
      split_ifs <;> try simp
    · exact noSave_stopScreenshotLoop _ pid n t
    · intro hmem
      have hid := captureFrame_saveFrame_id _ msg kok now pid n t hmem
      apply hcur
      rw [hc]
      simpa [jsId] using hid
    · exact noSave_stopScreenshotLoop _ pid n t
  | wsResult a c now => exact noSave_wsResultStep s a c now pid n t
  | wsServerClose =>
    show CoreAction.saveFrame pid n t ∉ (wsServerCloseStep s).2
    rcases h : s.apiWebSocket with _ | i <;> simp [wsServerCloseStep, h]
  | toggle =>
    show CoreAction.saveFrame pid n t ∉ (toggleDetection s).2
    have h1b : ∀ u : CoreState, CoreAction.saveFrame pid n t ∉ (stopScreenshotLoop u).2 :=
      fun u => noSave_stopScreenshotLoop u pid n t
    simp only [toggleDetection]
    split_ifs <;> simp_all
  | sensorDisconnect => simp [coreStep, handleSensorDisconnect]

lemma coreStep_currentPost_ne (s : CoreState) (e : CoreEv) (pid : String)
    (hcur : jsId s.currentPost ≠ some pid) (hev : ¬ carriesPostId e pid) :
    jsId (coreStep s e).1.currentPost ≠ some pid := by
  cases e with
  | sensor m now cok kok =>
    show jsId (handleDomSensorMessage s m now cok kok).1.currentPost ≠ some pid
    rw [handleDomSensorMessage_currentPost]
    simpa [carriesPostId, jsId] using hev
  | settleFire kok now =>
    show jsId (settleFireStep s kok now).1.currentPost ≠ some pid
    rw [settleFireStep_currentPost]; exact hcur
  | tick kok now =>
    show jsId (tickStep s kok now).1.currentPost ≠ some pid
    rw [tickStep_currentPost]; exact hcur
  | wsResult a c now =>
    show jsId (wsResultStep s a c now).1.currentPost ≠ some pid
    rw [wsResultStep_currentPost]; exact hcur
  | wsServerClose =>
    show jsId (wsServerCloseStep s).1.currentPost ≠ some pid
    rw [wsServerCloseStep_currentPost]; exact hcur
  | toggle =>
    show jsId (toggleDetection s).1.currentPost ≠ some pid
    rw [toggleDetection_currentPost]; exact hcur
  | sensorDisconnect => exact hcur

lemma coreRun_noFrames (s : CoreState) (evs : List CoreEv) (pid : String)
    (hcur : jsId s.currentPost ≠ some pid)
    (hevs : ∀ e ∈ evs, ¬ carriesPostId e pid) :
    noFramesFor pid (coreRun s evs).2 := by
  induction evs generalizing s with
  | nil => intro n t; simp [coreRun]
  | cons e es ih =>
    intro n t
    have hstep := coreStep_noSave s e pid n t hcur
    have hnext := ih (coreStep s e).1
      (coreStep_currentPost_ne s e pid hcur (hevs e (by simp)))
      (fun e2 he2 => hevs e2 (by simp [he2]))
    simp only [coreRun, List.mem_append, not_or]
    exact ⟨hstep, hnext n t⟩

lemma updateOverlay_loopFields (s : CoreState) (st : OverlayState) :
    (updateOverlay s st).1.screenshotStartDelay = s.screenshotStartDelay
    ∧ (updateOverlay s st).1.currentScreenshotPostId = s.currentScreenshotPostId := by
  simp only [updateOverlay]
  split_ifs <;> exact ⟨rfl, rfl⟩

lemma triggerDetection_loopFields (s : CoreState) (m : DomSensorMessage)
    (now : Nat) (kok : Bool) :
    (triggerDetection s m now kok).screenshotStartDelay = s.screenshotStartDelay
    ∧ (triggerDetection s m now kok).currentScreenshotPostId
        = s.currentScreenshotPostId := by
  rcases hm : m.post with _ | p <;> simp only [triggerDetection, hm]
  · trivial
  · split_ifs <;> exact ⟨rfl, rfl⟩

lemma sensorTail_loopFields (s : CoreState) (p : SensorPost)
    (m : DomSensorMessage) (now : Nat) (kok : Bool) :
    (sensorTail s p m now kok).1.screenshotStartDelay = s.screenshotStartDelay
    ∧ (sensorTail s p m now kok).1.currentScreenshotPostId
        = s.currentScreenshotPostId := by
  simp only [sensorTail]
  constructor
  · rw [(triggerDetection_loopFields _ m now kok).1, (updateOverlay_loopFields s _).1]
  · rw [(triggerDetection_loopFields _ m now kok).2, (updateOverlay_loopFields s _).2]

lemma disconnectApiWebSocket_loopFields (s : CoreState) :
    (disconnectApiWebSocket s).1.screenshotStartDelay = s.screenshotStartDelay
    ∧ (disconnectApiWebSocket s).1.currentScreenshotPostId = s.currentScreenshotPostId
    ∧ (disconnectApiWebSocket s).1.detectionEnabled = s.detectionEnabled := by
  rcases h : s.apiWebSocket with _ | i <;> simp [disconnectApiWebSocket, h]

lemma connectApiWebSocket_loopFields (s : CoreState) (postId : String) (cok : Bool) :
    (connectApiWebSocket s postId cok).1.screenshotStartDelay = s.screenshotStartDelay
    ∧ (connectApiWebSocket s postId cok).1.currentScreenshotPostId
        = s.currentScreenshotPostId
    ∧ (connectApiWebSocket s postId cok).1.detectionEnabled = s.detectionEnabled := by
  have hd := disconnectApiWebSocket_loopFields s
  simp only [connectApiWebSocket]
  split_ifs <;> simp_all

lemma startScreenshotLoop_sets (s : CoreState) (m : DomSensorMessage) (p : SensorPost)
    (hm : m.post = some p) (hen : s.detectionEnabled = true)
    (hcspi : s.currentScreenshotPostId ≠ some p.id) :
    (startScreenshotLoop s m).1.screenshotStartDelay = true
    ∧ (startScreenshotLoop s m).1.currentScreenshotPostId = some p.id := by
  simp only [startScreenshotLoop, hm]
  rw [if_neg (fun hno => hno hen), if_neg (fun hcontra => hcspi hcontra.1)]
  exact ⟨rfl, rfl⟩

lemma armAndTail_sets (s : CoreState) (p : SensorPost) (m : DomSensorMessage)
    (now : Nat) (cok kok : Bool) (hm : m.post = some p)
    (hen : s.detectionEnabled = true)
    (hcspi : s.currentScreenshotPostId ≠ some p.id) :
    (armAndTail s p m now cok kok).1.screenshotStartDelay = true
    ∧ (armAndTail s p m now cok kok).1.currentScreenshotPostId = some p.id := by
  simp only [armAndTail]
  have hc := connectApiWebSocket_loopFields s p.id cok
  have hst := startScreenshotLoop_sets (connectApiWebSocket s p.id cok).1 m p hm
    (by rw [hc.2.2, hen]) (by rw [hc.2.1]; exact hcspi)
  have ht := sensorTail_loopFields
    (startScreenshotLoop (connectApiWebSocket s p.id cok).1 m).1 p m now kok
  constructor
  · rw [ht.1, hst.1]
  · rw [ht.2, hst.2]

/-- C7: if a location event naming a different post (`p2`) arrives while
the settle delay of a previous post (`id1`) is pending, then the handler
itself captures nothing for `id1`, no later event (that is not a fresh
sensor message for `id1`) can ever produce a frame for `id1` — the
cancelled settle timer in particular never fires a capture — and (with
detection enabled and no cached verdict) the new post begins its own
settle delay. -/
theorem C7_new_post_cancels_prior_settle (s : CoreState)
    (m2 : DomSensorMessage) (p2 : SensorPost) (id1 : String)
    (now : Nat) (connectOk captureOk : Bool) (evs : List CoreEv)
    (hdelay : s.screenshotStartDelay = true)
    (hcur1 : s.currentScreenshotPostId = some id1)
    (hpost2 : m2.post = some p2) (hne : p2.id ≠ id1)
    (hevs : ∀ e ∈ evs, ¬ carriesPostId e id1) :
    noFramesFor id1 (handleDomSensorMessage s m2 now connectOk captureOk).2
    ∧ noFramesFor id1
        (coreRun (handleDomSensorMessage s m2 now connectOk captureOk).1 evs).2
    ∧ (s.detectionEnabled = true →
        cacheGet s.detectionCache p2.id = none →
        (handleDomSensorMessage s m2 now connectOk captureOk).1.screenshotStartDelay
            = true
        ∧ (handleDomSensorMessage s m2 now connectOk captureOk).1.currentScreenshotPostId
            = some p2.id) := by
  refine ⟨fun n t => noSave_handleDomSensorMessage s m2 now connectOk captureOk id1 n t,
    ?_, ?_⟩
  · apply coreRun_noFrames _ evs id1 _ hevs
    rw [handleDomSensorMessage_currentPost]
    simp [jsId, hpost2, hne]
  · intro hen hc
    simp only [handleDomSensorMessage, hpost2, hen, if_true, hc]
    exact armAndTail_sets _ p2 m2 now connectOk captureOk hpost2 rfl
      (by show s.currentScreenshotPostId ≠ some p2.id
          rw [hcur1]
          intro hcontra
          exact hne (Option.some.inj hcontra).symm)

/-- Witness for `C7_new_post_cancels_prior_settle`: the settle delay of
`post_1_1000` is pending when `post_2_2000` arrives at t = 300 ms; the
old settle fire then produces no frame for `post_1_1000` and the new
post is waiting on its own settle delay. -/
theorem C7_new_post_cancels_prior_settle_witness :
    noFramesFor "post_1_1000"
      (handleDomSensorMessage
        { initCoreState with
            currentPost := some ⟨some ⟨"post_1_1000", 0, 0, 1, 1⟩, 1⟩,
            screenshotStartDelay := true,
            currentScreenshotPostId := some "post_1_1000" }
        ⟨some ⟨"post_2_2000", 5, 6, 7, 8⟩, 1⟩ 300 true true).2
    ∧ noFramesFor "post_1_1000"
      (coreRun (handleDomSensorMessage
        { initCoreState with
            currentPost := some ⟨some ⟨"post_1_1000", 0, 0, 1, 1⟩, 1⟩,
            screenshotStartDelay := true,
            currentScreenshotPostId := some "post_1_1000" }
        ⟨some ⟨"post_2_2000", 5, 6, 7, 8⟩, 1⟩ 300 true true).1
        [CoreEv.settleFire true 1500]).2
    ∧ (handleDomSensorMessage
        { initCoreState with
            currentPost := some ⟨some ⟨"post_1_1000", 0, 0, 1, 1⟩, 1⟩,
            screenshotStartDelay := true,
            currentScreenshotPostId := some "post_1_1000" }
        ⟨some ⟨"post_2_2000", 5, 6, 7, 8⟩, 1⟩ 300 true true).1.screenshotStartDelay
        = true
    ∧ (handleDomSensorMessage
        { initCoreState with
            currentPost := some ⟨some ⟨"post_1_1000", 0, 0, 1, 1⟩, 1⟩,
            screenshotStartDelay := true,
            currentScreenshotPostId := some "post_1_1000" }
        ⟨some ⟨"post_2_2000", 5, 6, 7, 8⟩, 1⟩ 300 true true).1.currentScreenshotPostId
        = some "post_2_2000" :=
  have h := C7_new_post_cancels_prior_settle
    { initCoreState with
        currentPost := some ⟨some ⟨"post_1_1000", 0, 0, 1, 1⟩, 1⟩,
        screenshotStartDelay := true,
        currentScreenshotPostId := some "post_1_1000" }
    ⟨some ⟨"post_2_2000", 5, 6, 7, 8⟩, 1⟩ ⟨"post_2_2000", 5, 6, 7, 8⟩ "post_1_1000"
    300 true true [CoreEv.settleFire true 1500]
    rfl rfl rfl (by decide)
    (fun e he => by
      rw [List.mem_singleton] at he
      subst he
      simp [carriesPostId])
  ⟨h.1, h.2.1, (h.2.2 rfl rfl).1, (h.2.2 rfl rfl).2⟩

/-! ## Subscription uniqueness (C4) -/

/-- The api-connection fields of two states agree. -/
def connFieldsEq (s t : CoreState) : Prop :=
  t.openConns = s.openConns ∧ t.apiWebSocket = s.apiWebSocket
  ∧ t.currentApiPostId = s.currentApiPostId

/-- The subscription invariant: at most one api websocket is open, and
any open one is the tracked one, for the tracked base id. -/
def connInv (s : CoreState) : Prop :=
  s.openConns.length ≤ 1
  ∧ ∀ c ∈ s.openConns, s.apiWebSocket = some c.1 ∧ s.currentApiPostId = some c.2

lemma connInv_of_fieldsEq {s t : CoreState} (h : connFieldsEq s t) (hi : connInv s) :
    connInv t := by
  obtain ⟨h1, h2, h3⟩ := h
  refine ⟨h1 ▸ hi.1, fun c hc => ?_⟩
  rw [h2, h3]
  exact hi.2 c (h1 ▸ hc)

lemma connFieldsEq_trans {s t u : CoreState} (h1 : connFieldsEq s t)
    (h2 : connFieldsEq t u) : connFieldsEq s u :=
  ⟨h2.1.trans h1.1, h2.2.1.trans h1.2.1, h2.2.2.trans h1.2.2⟩

lemma stopScreenshotLoop_connFields (s : CoreState) :
    connFieldsEq s (stopScreenshotLoop s).1 := by
  simp only [connFieldsEq, stopScreenshotLoop]
  split_ifs <;> exact ⟨rfl, rfl, rfl⟩

lemma updateOverlay_connFields (s : CoreState) (st : OverlayState) :
    connFieldsEq s (updateOverlay s st).1 := by
  simp only [connFieldsEq, updateOverlay]
  split_ifs <;> exact ⟨rfl, rfl, rfl⟩

lemma updateOverlayWithDetection_connFields (s : CoreState) (p : SensorPost)
    (r : DetectionResult) : connFieldsEq s (updateOverlayWithDetection s p r).1 := by
  simp only [updateOverlayWithDetection]
  exact updateOverlay_connFields _ _

lemma captureSave_connFields (s : CoreState) (p : SensorPost) (kok : Bool) (now : Nat) :
    connFieldsEq s (captureSave s p kok now).1 := by
  simp only [connFieldsEq, captureSave]
  split_ifs <;> exact ⟨rfl, rfl, rfl⟩

lemma captureFrame_connFields (s : CoreState) (m : DomSensorMessage)
    (kok : Bool) (now : Nat) : connFieldsEq s (captureFrame s m kok now).1 := by
  rcases hm : m.post with _ | p <;> simp only [captureFrame, hm]
  · exact ⟨rfl, rfl, rfl⟩
  · rcases hc : cacheGet s.detectionCache p.id with _ | cached <;> simp only [hc]
    · exact captureSave_connFields _ _ _ _
    · split_ifs
      · exact connFieldsEq_trans (updateOverlayWithDetection_connFields s p cached)
          (stopScreenshotLoop_connFields _)
      · exact captureSave_connFields _ _ _ _

lemma startScreenshotLoop_connFields (s : CoreState) (m : DomSensorMessage) :
    connFieldsEq s (startScreenshotLoop s m).1 := by
  rcases hm : m.post with _ | p <;> simp only [startScreenshotLoop, hm]
  · exact ⟨rfl, rfl, rfl⟩
  · split_ifs <;>
      first
        | exact ⟨rfl, rfl, rfl⟩
        | exact ⟨(stopScreenshotLoop_connFields s).1,
            (stopScreenshotLoop_connFields s).2.1,
            (stopScreenshotLoop_connFields s).2.2⟩

lemma triggerDetection_connFields (s : CoreState) (m : DomSensorMessage)
    (now : Nat) (kok : Bool) : connFieldsEq s (triggerDetection s m now kok) := by
  rcases hm : m.post with _ | p <;> simp only [triggerDetection, hm]
  · exact ⟨rfl, rfl, rfl⟩
  · split_ifs <;> exact ⟨rfl, rfl, rfl⟩

lemma sensorTail_connFields (s : CoreState) (p : SensorPost) (m : DomSensorMessage)
    (now : Nat) (kok : Bool) : connFieldsEq s (sensorTail s p m now kok).1 := by
  simp only [sensorTail]
  exact connFieldsEq_trans (updateOverlay_connFields s _)
    (triggerDetection_connFields _ m now kok)

lemma disconnectApiWebSocket_closes (s : CoreState) (hi : connInv s) :
    (disconnectApiWebSocket s).1.openConns = []
    ∧ (disconnectApiWebSocket s).1.apiWebSocket = none := by
  rcases h : s.apiWebSocket with _ | i
  · have hd : disconnectApiWebSocket s = (s, []) := by
      simp only [disconnectApiWebSocket, h]
    rw [hd]
    refine ⟨List.eq_nil_iff_forall_not_mem.mpr (fun c hc => ?_), h⟩
    have := (hi.2 c hc).1
    rw [h] at this
    exact Option.noConfusion this
  · have hd1 : (disconnectApiWebSocket s).1.openConns
        = s.openConns.filter (fun c => c.1 ≠ i) := by
      simp only [disconnectApiWebSocket, h]
    have hd2 : (disconnectApiWebSocket s).1.apiWebSocket = none := by
      simp only [disconnectApiWebSocket, h]
    refine ⟨?_, hd2⟩
    rw [hd1]
    exact List.eq_nil_iff_forall_not_mem.mpr (fun c hc => by
      rw [List.mem_filter] at hc
      have hone := (hi.2 c hc.1).1
      rw [h] at hone
      exact (of_decide_eq_true hc.2) (Option.some.inj hone).symm)

lemma disconnectApiWebSocket_connInv (s : CoreState) (hi : connInv s) :
    connInv (disconnectApiWebSocket s).1 := by
  have hd := disconnectApiWebSocket_closes s hi
  refine ⟨by rw [hd.1]; simp, fun c hc => ?_⟩
  rw [hd.1] at hc
  exact absurd hc (List.not_mem_nil c)

lemma connectApiWebSocket_connInv (s : CoreState) (postId : String) (cok : Bool)
    (hi : connInv s) : connInv (connectApiWebSocket s postId cok).1 := by
  have hd := disconnectApiWebSocket_closes s hi
  simp only [connectApiWebSocket]
  split_ifs with h1 h2
  · exact hi
  · constructor
    · show ((disconnectApiWebSocket s).1.openConns
          ++ [((disconnectApiWebSocket s).1.nextConnId, extractBasePostIdStr postId)]).length
          ≤ 1
      rw [hd.1]
      simp
    · intro c hc
      have hc2 : c ∈ (disconnectApiWebSocket s).1.openConns
          ++ [((disconnectApiWebSocket s).1.nextConnId, extractBasePostIdStr postId)] := hc
      rw [hd.1] at hc2
      simp only [List.nil_append, List.mem_singleton] at hc2
      subst hc2
      exact ⟨rfl, rfl⟩
  · refine ⟨?_, fun c hc => ?_⟩
    · show (disconnectApiWebSocket s).1.openConns.length ≤ 1
      rw [hd.1]
      simp
    · exfalso
      have hc2 : c ∈ (disconnectApiWebSocket s).1.openConns := hc
      rw [hd.1] at hc2
      exact List.not_mem_nil c hc2

lemma wsServerCloseStep_connInv (s : CoreState) (hi : connInv s) :
    connInv (wsServerCloseStep s).1 := by
  rcases h : s.apiWebSocket with _ | i <;> simp only [wsServerCloseStep, h]
  · exact hi
  · refine ⟨le_trans (List.length_filter_le _ _) hi.1, fun c hc => ?_⟩
    rw [List.mem_filter] at hc
    have hone := (hi.2 c hc.1).1
    rw [h] at hone
    exact absurd (Option.some.inj hone).symm (of_decide_eq_true hc.2)

lemma wsResultStep_connFields (s : CoreState) (isAi : Bool) (conf : ℚ) (now : Nat) :
    connFieldsEq s (wsResultStep s isAi conf now).1 := by
  rcases h1 : s.apiWebSocket with _ | i <;>
    rcases h2 : s.currentApiPostId with _ | b <;>
    simp only [wsResultStep, h1, h2] <;>
    try exact ⟨rfl, rfl, rfl⟩
  rcases hp : s.currentPost.bind (fun m => m.post) with _ | p <;> simp only [hp]
  · exact ⟨rfl, rfl, rfl⟩
  · split_ifs <;>
      first
        | exact ⟨rfl, rfl, rfl⟩
        | refine ⟨?_, ?_, ?_⟩
          · rw [(stopScreenshotLoop_connFields _).1,
              (updateOverlayWithDetection_connFields _ p _).1]
          · rw [(stopScreenshotLoop_connFields _).2.1,
              (updateOverlayWithDetection_connFields _ p _).2.1, h1]
          · rw [(stopScreenshotLoop_connFields _).2.2,
              (updateOverlayWithDetection_connFields _ p _).2.2, h2]

lemma toggleDetection_connFields (s : CoreState) :
    connFieldsEq s (toggleDetection s).1 := by
  simp only [toggleDetection]
  split_ifs <;>
    first
      | exact ⟨rfl, rfl, rfl⟩
      | exact ⟨(stopScreenshotLoop_connFields _).1,
          (stopScreenshotLoop_connFields _).2.1,
          (stopScreenshotLoop_connFields _).2.2⟩

lemma handleDomSensorMessage_connInv (s : CoreState) (m : DomSensorMessage)
    (now : Nat) (cok kok : Bool) (hi : connInv s) :
    connInv (handleDomSensorMessage s m now cok kok).1 := by
  have hi1 : connInv ({ s with currentPost := some m } : CoreState) := ⟨hi.1, hi.2⟩
  rcases hm : m.post with _ | p <;> simp only [handleDomSensorMessage, hm]
  · apply connInv_of_fieldsEq (updateOverlay_connFields _ _)
    apply disconnectApiWebSocket_connInv
    exact connInv_of_fieldsEq (stopScreenshotLoop_connFields _) hi1
  · split_ifs with hen
    · have harm : connInv (armAndTail { s with currentPost := some m } p m now cok kok).1 := by
        simp only [armAndTail]
        apply connInv_of_fieldsEq (sensorTail_connFields _ p m now kok)
        apply connInv_of_fieldsEq (startScreenshotLoop_connFields _ m)
        exact connectApiWebSocket_connInv _ p.id cok hi1
      rcases hc : cacheGet s.detectionCache p.id with _ | cached <;> simp only [hc]
      · exact harm
      · split_ifs with hhit
        · exact connInv_of_fieldsEq (updateOverlayWithDetection_connFields _ p cached) hi1
        · exact harm
    · exact connInv_of_fieldsEq (sensorTail_connFields _ p m now kok) hi1

lemma coreStep_connInv (s : CoreState) (e : CoreEv) (hi : connInv s) :
    connInv (coreStep s e).1 := by
  cases e with
  | sensor m now cok kok => exact handleDomSensorMessage_connInv s m now cok kok hi
  | settleFire kok now =>
    show connInv (settleFireStep s kok now).1
    rcases hc : s.currentPost with _ | msg <;> simp only [settleFireStep, hc] <;>
      split_ifs <;>
      first
        | exact hi
        | exact ⟨hi.1, hi.2⟩
        | exact connInv_of_fieldsEq
            ⟨(stopScreenshotLoop_connFields _).1,
             (stopScreenshotLoop_connFields _).2.1,
             (stopScreenshotLoop_connFields _).2.2⟩ hi
        | exact connInv_of_fieldsEq
            ⟨(captureFrame_connFields _ msg kok now).1,
             (captureFrame_connFields _ msg kok now).2.1,
             (captureFrame_connFields _ msg kok now).2.2⟩ hi
  | tick kok now =>
    show connInv (tickStep s kok now).1
    rcases hc : s.currentPost with _ | msg <;> simp only [tickStep, hc] <;>
      split_ifs <;>
      first
        | exact hi
        | exact ⟨hi.1, hi.2⟩
        | exact connInv_of_fieldsEq
            ⟨(stopScreenshotLoop_connFields _).1,
             (stopScreenshotLoop_connFields _).2.1,
             (stopScreenshotLoop_connFields _).2.2⟩ hi
        | exact connInv_of_fieldsEq
            ⟨(captureFrame_connFields _ msg kok now).1,
             (captureFrame_connFields _ msg kok now).2.1,
             (captureFrame_connFields _ msg kok now).2.2⟩ hi
  | wsResult a c now =>
    exact connInv_of_fieldsEq (wsResultStep_connFields s a c now) hi
  | wsServerClose => exact wsServerCloseStep_connInv s hi
  | toggle => exact connInv_of_fieldsEq (toggleDetection_connFields s) hi
  | sensorDisconnect => exact hi

lemma coreRun_connInv (evs : List CoreEv) : connInv (coreRun initCoreState evs).1 := by
  have hstep : ∀ (s : CoreState) (rest : List CoreEv), connInv s →
      connInv (coreRun s rest).1 := by
    intro s rest
    induction rest generalizing s with
    | nil => intro h; simpa [coreRun] using h
    | cons e es ih =>
      intro h
      simp only [coreRun]
      exact ih _ (coreStep_connInv s e h)
  exact hstep initCoreState evs ⟨by simp [initCoreState], by simp [initCoreState]⟩

/-- C4 counterexample: from the initial state, deliver `post_2_9`, let its
verdict arrive (cached as `Likely Real`) and the server close the socket,
deliver `post_1_8` (subscription for base `post_1` opens), then re-enter
`post_2_9` within the cache TTL.  The cached-verdict path returns without
touching the subscription: the one open subscription is for `post_1`
while the currently active post is `post_2_9` (base `post_2`),
contradicting the claim that the open subscription is always for the base
id of the currently active post. -/
theorem C4_counterexample :
    (coreRun initCoreState
      [CoreEv.sensor ⟨some ⟨"post_2_9", 1, 1, 1, 1⟩, 1⟩ 10000 true false,
       CoreEv.wsResult false 0.9 10100,
       CoreEv.wsServerClose,
       CoreEv.sensor ⟨some ⟨"post_1_8", 2, 2, 2, 2⟩, 1⟩ 10200 true false,
       CoreEv.sensor ⟨some ⟨"post_2_9", 1, 1, 1, 1⟩, 1⟩ 10300 true false]).1.openConns
      = [(1, "post_1")]
    ∧ jsId (coreRun initCoreState
      [CoreEv.sensor ⟨some ⟨"post_2_9", 1, 1, 1, 1⟩, 1⟩ 10000 true false,
       CoreEv.wsResult false 0.9 10100,
       CoreEv.wsServerClose,
       CoreEv.sensor ⟨some ⟨"post_1_8", 2, 2, 2, 2⟩, 1⟩ 10200 true false,
       CoreEv.sensor ⟨some ⟨"post_2_9", 1, 1, 1, 1⟩, 1⟩ 10300 true false]).1.currentPost
      = some "post_2_9"
    ∧ extractBasePostIdStr "post_2_9" = "post_2"
    ∧ extractBasePostIdStr "post_1_8" = "post_1"
    ∧ ("post_2" : String) ≠ "post_1" := by
  have hlab : mapApiResponseToLabel false 0.9 = "Likely Real" := by
    norm_num [mapApiResponseToLabel]
  refine ⟨?_, ?_, by decide, by decide, by decide⟩ <;>
    simp +decide only [coreRun, coreStep, handleDomSensorMessage, armAndTail,
      sensorTail, connectApiWebSocket, disconnectApiWebSocket, startScreenshotLoop,
      stopScreenshotLoop, updateOverlay, updateOverlayWithDetection, triggerDetection,
      captureFrame, captureSave, wsResultStep, wsServerCloseStep, cacheGet, jsId,
      jsStrEq, initCoreState, hiddenOverlayState, CACHE_TTL_MS, DETECTION_THROTTLE_MS,
      analyzingLabel, hlab, extractBasePostIdStr, extractBasePostId, matchPostNum,
      takeDigits, postMarker]

/-- C4 (amended): over any event sequence from startup, at most one
result subscription is open at any time, and an open one is the tracked
socket for the tracked base id (`currentApiPostId`); connecting for a
base id already subscribed is a no-op (the socket is reused); connecting
for a new base id closes the prior subscription before opening the new
one.  The tracked base id is the one most recently armed, which can
differ from the currently active post's base id (see the
counterexample). -/
theorem C4_amended_single_subscription (evs : List CoreEv) :
    ((coreRun initCoreState evs).1.openConns.length ≤ 1
      ∧ ∀ c ∈ (coreRun initCoreState evs).1.openConns,
          (coreRun initCoreState evs).1.apiWebSocket = some c.1
          ∧ (coreRun initCoreState evs).1.currentApiPostId = some c.2)
    ∧ (∀ (s : CoreState) (postId : String) (cok : Bool),
        s.apiWebSocket.isSome → s.currentApiPostId = some (extractBasePostIdStr postId) →
        connectApiWebSocket s postId cok = (s, []))
    ∧ (∀ (s : CoreState) (postId : String) (i : Nat),
        s.apiWebSocket = some i →
        s.currentApiPostId ≠ some (extractBasePostIdStr postId) →
        (connectApiWebSocket s postId true).2
          = [CoreAction.closeSubscription,
             CoreAction.openSubscription (extractBasePostIdStr postId)]) := by
  refine ⟨coreRun_connInv evs, ?_, ?_⟩
  · intro s postId cok h1 h2
    simp only [connectApiWebSocket]
    rw [if_pos ⟨h1, h2⟩]
  · intro s postId i hsock hne
    have hd : (disconnectApiWebSocket s).2 = [CoreAction.closeSubscription] := by
      simp only [disconnectApiWebSocket, hsock]
    simp only [connectApiWebSocket]
    rw [if_neg (fun hcontra => hne hcontra.2)]
    simp only [if_true, hd]
    rfl

/-- Witness for `C4_amended_single_subscription`: the invariant after one
arming event, a reused connection for the already-subscribed base id, and
a close-then-open action pair when arming a different base id. -/
theorem C4_amended_single_subscription_witness :
    (coreRun initCoreState
        [CoreEv.sensor ⟨some ⟨"post_1_1000", 1, 2, 3, 4⟩, 2⟩ 1000000 true true]).1.openConns.length
      ≤ 1
    ∧ connectApiWebSocket
        { initCoreState with
            apiWebSocket := some 0,
            currentApiPostId := some "post_1",
            openConns := [(0, "post_1")] } "post_1_1000" true
      = ({ initCoreState with
            apiWebSocket := some 0,
            currentApiPostId := some "post_1",
            openConns := [(0, "post_1")] }, [])
    ∧ (connectApiWebSocket
        { initCoreState with
            apiWebSocket := some 0,
            currentApiPostId := some "post_1",
            openConns := [(0, "post_1")] } "post_2_9" true).2
      = [CoreAction.closeSubscription, CoreAction.openSubscription "post_2"] :=
  have h := C4_amended_single_subscription
    [CoreEv.sensor ⟨some ⟨"post_1_1000", 1, 2, 3, 4⟩, 2⟩ 1000000 true true]
  ⟨h.1.1,
    h.2.1 { initCoreState with
        apiWebSocket := some 0,
        currentApiPostId := some "post_1",
        openConns := [(0, "post_1")] } "post_1_1000" true rfl (by decide),
    (h.2.2 { initCoreState with
        apiWebSocket := some 0,
        currentApiPostId := some "post_1",
        openConns := [(0, "post_1")] } "post_2_9" 0 rfl (by decide)).trans (by decide)⟩
